import Mathlib

/-!
# sdui-shape-shift-store: mode resolution, navigation and screen composition

A shallow embedding of `sdui-server/ui_configs.go` (with the parts of `main.go`
and `products.go` the properties touch) and the properties proved about it.

Go's `map[string]interface{}` values are embedded as a JSON-like tree `Value`;
a map keeps its entries in the order the source writes them.  A Go type
assertion `x.(T)` that would panic is embedded as `none`.
-/

namespace Sdui

/-! ## Data model -/

/-- Decimal literal of a Go `float64` constant: `mant / 10 ^ scale`. -/
structure Dec where
  mant : Int
  scale : Nat
  deriving DecidableEq, Repr

/-- Dynamic Go value (`interface{}`) as it appears in the descriptors. -/
inductive Value where
  | bool (b : Bool)
  | int (i : Int)
  | float (d : Dec)
  | str (s : String)
  | arr (items : List Value)
  | obj (entries : List (String × Value))
  deriving Repr

/-- Map read `m[k]` on the entries of a Go map. -/
def mapGet (k : String) : List (String × Value) → Option Value
  | [] => none
  | (k', v) :: rest => if k' = k then some v else mapGet k rest

/-- Map write `m[k] = v`: overwrite the entry when the key is present, add it otherwise. -/
def mapSet (k : String) (v : Value) : List (String × Value) → List (String × Value)
  | [] => [(k, v)]
  | (k', v') :: rest => if k' = k then (k, v) :: rest else (k', v') :: mapSet k v rest

/-- Type assertion `x.(map[string]interface{})`. -/
def Value.asMap : Value → Option (List (String × Value))
  | .obj entries => some entries
  | _ => none

/-- Type assertion `x.(string)`. -/
def Value.asString : Value → Option String
  | .str s => some s
  | _ => none

/-- Field read on a value that is a map; `none` when it is not a map or lacks the key. -/
def Value.get (v : Value) (k : String) : Option Value :=
  match v with
  | .obj entries => mapGet k entries
  | _ => none

/-- Elements of a value that is a slice. -/
def Value.elems : Value → List Value
  | .arr items => items
  | _ => []

/-! ## Mode determination (`getCurrentMode`) -/

/-- The `case` guards of the `switch` in `getCurrentMode`, in source order, each with the
mode it returns. -/
def modeCases : List ((Int → Bool) × String) :=
  [ (fun hour => decide (hour ≥ 0) && decide (hour < 6), "late_night"),
    (fun hour => decide (hour ≥ 6) && decide (hour < 9), "morning"),
    (fun hour => decide (hour ≥ 9) && decide (hour < 12), "day"),
    (fun hour => decide (hour ≥ 12) && decide (hour < 14), "flash_sale"),
    (fun hour => decide (hour ≥ 14) && decide (hour < 17), "afternoon"),
    (fun hour => decide (hour ≥ 17) && decide (hour < 20), "evening"),
    (fun hour => decide (hour ≥ 20) && decide (hour < 24), "night") ]

/-- Body of `getCurrentMode` after `hour := time.Now().Hour()`: the first case whose guard
holds decides, `default` returns "day". -/
def getCurrentMode (hour : Int) : String :=
  match modeCases.find? (fun c => c.1 hour) with
  | some c => c.2
  | none => "day"

/-! ## Navigation (`getNavigationConfig`, `getScreenTitle`) -/

def getScreenTitle (screen : String) : String :=
  if screen = "/" ∨ screen = "home" then ""
  else if screen = "/search" then "Search"
  else if screen = "/cart" then "Cart"
  else if screen = "/favorites" then "Favorites"
  else if screen = "/profile" then "Profile"
  else if screen = "/product" then "Product Details"
  else ""

/-- The slice `allNavItems`. -/
def allNavItems : List Value :=
  [ .obj [("id", .str "nav-home"), ("label", .str "Home"), ("icon", .str "home"), ("route", .str "/")],
    .obj [("id", .str "nav-search"), ("label", .str "Search"), ("icon", .str "search"), ("route", .str "/search")],
    .obj [("id", .str "nav-cart"), ("label", .str "Cart"), ("icon", .str "cart"), ("route", .str "/cart")],
    .obj [("id", .str "nav-favorites"), ("label", .str "Favorites"), ("icon", .str "favorite"), ("route", .str "/favorites")],
    .obj [("id", .str "nav-profile"), ("label", .str "Profile"), ("icon", .str "person"), ("route", .str "/profile")] ]

/-- The `switch mode` of `getNavigationConfig` that fills `navItems`; an index expression
`allNavItems[i]` out of range would panic. -/
def selectNavItems (mode : String) : Option (List Value) :=
  if mode = "late_night" then do
    pure [← allNavItems[0]?, ← allNavItems[4]?]
  else if mode = "flash_sale" then do
    pure [← allNavItems[0]?, ← allNavItems[2]?]
  else if mode = "evening" then do
    pure [← allNavItems[0]?, ← allNavItems[3]?, ← allNavItems[4]?]
  else if mode = "night" then do
    pure [← allNavItems[0]?, ← allNavItems[1]?, ← allNavItems[3]?, ← allNavItems[4]?]
  else do
    pure [← allNavItems[0]?, ← allNavItems[1]?, ← allNavItems[2]?, ← allNavItems[4]?]

/-- Loop `for _, item := range items` whose body rewrites each item and may panic. -/
def forEachItem (body : Value → Option Value) : List Value → Option (List Value)
  | [] => some []
  | item :: rest => do
    let item ← body item
    let rest ← forEachItem body rest
    pure (item :: rest)

/-- One iteration of the loop `for _, item := range navItems`: the item after the
`is_active` write and the mode-specific `label` writes. -/
def markNavItem (screen mode : String) (item : Value) : Option Value := do
  let navMap ← item.asMap
  let route ← (← mapGet "route" navMap).asString
  let isActive : Bool :=
    (route == "/" && (screen == "/" || screen == "home")) ||
    (route == "/search" && screen == "/search") ||
    (route == "/cart" && screen == "/cart") ||
    (route == "/favorites" && screen == "/favorites") ||
    (route == "/profile" && screen == "/profile")
  let navMap := mapSet "is_active" (.bool isActive) navMap
  let navMap := if mode = "flash_sale" ∧ route = "/" then mapSet "label" (.str "Deals") navMap else navMap
  let navMap :=
    if mode = "evening" then
      let navMap := if route = "/" then mapSet "label" (.str "Discover") navMap else navMap
      let navMap := if route = "/favorites" then mapSet "label" (.str "Saved") navMap else navMap
      if route = "/profile" then mapSet "label" (.str "You") navMap else navMap
    else navMap
  let navMap := if mode = "night" ∧ route = "/search" then mapSet "label" (.str "Explore") navMap else navMap
  pure (.obj navMap)

def getNavigationConfig (screen mode : String) : Option Value := do
  let navItems ← selectNavItems mode
  let navItems ← forEachItem (markNavItem screen mode) navItems
  pure (.obj [
    ("bottom_nav", .arr navItems),
    ("top_actions", .arr []),
    ("show_back_button", .bool (screen != "/" && screen != "home")),
    ("title", .str (getScreenTitle screen)) ])

/-! ## Helper functions (`getThemeForMode`, `getMetadata`) -/

/-- Readings of the wall clock `time.Now()` during one request: the hour, and the instant
formatted with `time.RFC3339` and with the layout `3:04 PM`. -/
structure Clock where
  hour : Int
  rfc3339 : String
  kitchen : String

def getThemeForMode (mode : String) : Value :=
  if mode = "night" ∨ mode = "late_night" then
    .obj [
      ("is_dark_mode", .bool true),
      ("primary_color", .str "#1A1A1A"),
      ("background_color", .str "#0A0A0A"),
      ("accent_color", .str "#FFD700") ]
  else if mode = "morning" then
    .obj [
      ("is_dark_mode", .bool false),
      ("primary_color", .str "#FF9800"),
      ("background_color", .str "#FFFBF5"),
      ("accent_color", .str "#FFC107") ]
  else if mode = "flash_sale" then
    .obj [
      ("is_dark_mode", .bool false),
      ("primary_color", .str "#FF4757"),
      ("background_color", .str "#FFFFFF"),
      ("accent_color", .str "#FF6B6B") ]
  else if mode = "afternoon" then
    .obj [
      ("is_dark_mode", .bool false),
      ("primary_color", .str "#00BCD4"),
      ("background_color", .str "#F0F8FF"),
      ("accent_color", .str "#00ACC1") ]
  else if mode = "evening" then
    .obj [
      ("is_dark_mode", .bool false),
      ("primary_color", .str "#6C5CE7"),
      ("background_color", .str "#FAF9F6"),
      ("accent_color", .str "#A29BFE") ]
  else
    .obj [
      ("is_dark_mode", .bool false),
      ("primary_color", .str "#2C3E50"),
      ("background_color", .str "#FFFFFF"),
      ("accent_color", .str "#3498DB") ]

def getMetadata (clk : Clock) (mode : String) : Value :=
  .obj [
    ("mode", .str mode),
    ("timestamp", .str clk.rfc3339),
    ("server_time", .str clk.kitchen),
    ("version", .str "2.0.0"),
    ("generated_by", .str "SDUI Engine") ]

/-! ## Product data generators -/

def getMidnightProducts : Value :=
  .arr [
    .obj [
      ("id", .str "p1"),
      ("name", .str "Midnight Silk Robe"),
      ("price", .int 189),
      ("image_url", .str "https://via.placeholder.com/200/1A1A2E/FFFFFF?text=Silk+Robe") ],
    .obj [
      ("id", .str "p2"),
      ("name", .str "Noir Leather Wallet"),
      ("price", .int 129),
      ("image_url", .str "https://via.placeholder.com/200/2C2C3E/FFFFFF?text=Wallet") ],
    .obj [
      ("id", .str "p3"),
      ("name", .str "Dark Essence Fragrance"),
      ("price", .int 159),
      ("image_url", .str "https://via.placeholder.com/200/1A1A2E/FFFFFF?text=Fragrance") ] ]

def getMorningProducts : Value :=
  .arr [
    .obj [
      ("id", .str "m1"),
      ("name", .str "Morning Brew Coffee Maker"),
      ("price", .int 79),
      ("original_price", .int 99),
      ("discount", .int 20),
      ("rating", .float ⟨45, 1⟩),
      ("review_count", .int 128),
      ("badge", .str "NEW"),
      ("is_favorite", .bool false),
      ("image_url", .str "https://via.placeholder.com/200/FF9800/FFFFFF?text=Coffee") ],
    .obj [
      ("id", .str "m2"),
      ("name", .str "Sunrise Yoga Mat"),
      ("price", .int 45),
      ("original_price", .int 60),
      ("discount", .int 25),
      ("rating", .float ⟨48, 1⟩),
      ("review_count", .int 95),
      ("is_favorite", .bool true),
      ("image_url", .str "https://via.placeholder.com/200/FFC107/FFFFFF?text=Yoga+Mat") ],
    .obj [
      ("id", .str "m3"),
      ("name", .str "Fresh Start Smoothie Blender"),
      ("price", .int 89),
      ("rating", .float ⟨46, 1⟩),
      ("review_count", .int 203),
      ("badge", .str "SALE"),
      ("is_favorite", .bool false),
      ("image_url", .str "https://via.placeholder.com/200/FF9800/FFFFFF?text=Blender") ] ]

def getFlashSaleProducts : Value :=
  .arr [
    .obj [
      ("id", .str "fs1"),
      ("name", .str "Wireless Earbuds"),
      ("price", .int 39),
      ("original_price", .int 99),
      ("discount", .int 60),
      ("rating", .float ⟨43, 1⟩),
      ("review_count", .int 542),
      ("badge", .str "FLASH"),
      ("is_favorite", .bool false),
      ("image_url", .str "https://via.placeholder.com/200/FF4757/FFFFFF?text=Earbuds") ],
    .obj [
      ("id", .str "fs2"),
      ("name", .str "Smart Watch"),
      ("price", .int 89),
      ("original_price", .int 199),
      ("discount", .int 55),
      ("rating", .float ⟨47, 1⟩),
      ("review_count", .int 287),
      ("badge", .str "FLASH"),
      ("is_favorite", .bool true),
      ("image_url", .str "https://via.placeholder.com/200/FF6B6B/FFFFFF?text=Watch") ],
    .obj [
      ("id", .str "fs3"),
      ("name", .str "Portable Speaker"),
      ("price", .int 29),
      ("original_price", .int 79),
      ("discount", .int 63),
      ("rating", .float ⟨44, 1⟩),
      ("review_count", .int 134),
      ("badge", .str "FLASH"),
      ("is_favorite", .bool false),
      ("image_url", .str "https://via.placeholder.com/200/FF4757/FFFFFF?text=Speaker") ],
    .obj [
      ("id", .str "fs4"),
      ("name", .str "Fitness Tracker"),
      ("price", .int 19),
      ("original_price", .int 49),
      ("discount", .int 61),
      ("rating", .float ⟨42, 1⟩),
      ("review_count", .int 89),
      ("badge", .str "FLASH"),
      ("is_favorite", .bool false),
      ("image_url", .str "https://via.placeholder.com/200/FF6B6B/FFFFFF?text=Fitness") ] ]

def getAfternoonProducts : Value :=
  .arr [
    .obj [
      ("id", .str "a1"),
      ("name", .str "Wireless Earbuds Pro"),
      ("price", .int 149),
      ("original_price", .int 199),
      ("discount", .int 25),
      ("rating", .float ⟨47, 1⟩),
      ("review_count", .int 342),
      ("is_favorite", .bool true),
      ("image_url", .str "https://via.placeholder.com/200/00BCD4/FFFFFF?text=Earbuds") ],
    .obj [
      ("id", .str "a2"),
      ("name", .str "Smart Watch Series 5"),
      ("price", .int 299),
      ("rating", .float ⟨49, 1⟩),
      ("review_count", .int 587),
      ("badge", .str "NEW"),
      ("is_favorite", .bool false),
      ("image_url", .str "https://via.placeholder.com/200/00ACC1/FFFFFF?text=Watch") ],
    .obj [
      ("id", .str "a3"),
      ("name", .str "Portable Speaker"),
      ("price", .int 89),
      ("original_price", .int 120),
      ("discount", .int 26),
      ("rating", .float ⟨45, 1⟩),
      ("review_count", .int 234),
      ("is_favorite", .bool false),
      ("image_url", .str "https://via.placeholder.com/200/0097A7/FFFFFF?text=Speaker") ],
    .obj [
      ("id", .str "a4"),
      ("name", .str "USB-C Hub"),
      ("price", .int 59),
      ("rating", .float ⟨46, 1⟩),
      ("review_count", .int 156),
      ("is_favorite", .bool false),
      ("image_url", .str "https://via.placeholder.com/200/00838F/FFFFFF?text=Hub") ] ]

def getEveningProducts : Value :=
  .arr [
    .obj [
      ("id", .str "e1"),
      ("name", .str "Premium Leather Jacket"),
      ("price", .int 299),
      ("rating", .float ⟨49, 1⟩),
      ("review_count", .int 128),
      ("badge", .str "PREMIUM"),
      ("is_favorite", .bool true),
      ("image_url", .str "https://via.placeholder.com/200/6C5CE7/FFFFFF?text=Jacket") ],
    .obj [
      ("id", .str "e2"),
      ("name", .str "Silk Evening Dress"),
      ("price", .int 189),
      ("rating", .float ⟨48, 1⟩),
      ("review_count", .int 95),
      ("is_favorite", .bool false),
      ("image_url", .str "https://via.placeholder.com/200/A29BFE/FFFFFF?text=Dress") ],
    .obj [
      ("id", .str "e3"),
      ("name", .str "Gold-Plated Watch"),
      ("price", .int 459),
      ("rating", .float ⟨49, 1⟩),
      ("review_count", .int 67),
      ("badge", .str "LUXURY"),
      ("is_favorite", .bool true),
      ("image_url", .str "https://via.placeholder.com/200/6C5CE7/FFFFFF?text=Watch") ],
    .obj [
      ("id", .str "e4"),
      ("name", .str "Designer Handbag"),
      ("price", .int 389),
      ("rating", .float ⟨47, 1⟩),
      ("review_count", .int 203),
      ("is_favorite", .bool false),
      ("image_url", .str "https://via.placeholder.com/200/A29BFE/FFFFFF?text=Handbag") ] ]

def getNightProducts : Value :=
  .arr [
    .obj [
      ("id", .str "n1"),
      ("name", .str "Midnight Crystal Necklace"),
      ("price", .int 599),
      ("rating", .float ⟨5, 0⟩),
      ("review_count", .int 42),
      ("badge", .str "BOUTIQUE"),
      ("is_favorite", .bool true),
      ("image_url", .str "https://via.placeholder.com/200/1A1A2E/FFD700?text=Necklace") ],
    .obj [
      ("id", .str "n2"),
      ("name", .str "Black Diamond Ring"),
      ("price", .int 899),
      ("rating", .float ⟨49, 1⟩),
      ("review_count", .int 28),
      ("is_favorite", .bool false),
      ("image_url", .str "https://via.placeholder.com/200/2C2C3E/FFD700?text=Ring") ],
    .obj [
      ("id", .str "n3"),
      ("name", .str "Limited Edition Perfume"),
      ("price", .int 249),
      ("rating", .float ⟨48, 1⟩),
      ("review_count", .int 56),
      ("badge", .str "EXCLUSIVE"),
      ("is_favorite", .bool true),
      ("image_url", .str "https://via.placeholder.com/200/1A1A2E/FFD700?text=Perfume") ] ]

def getDayProducts : Value :=
  .arr [
    .obj [
      ("id", .str "d1"),
      ("name", .str "Casual T-Shirt"),
      ("price", .int 29),
      ("original_price", .int 39),
      ("discount", .int 26),
      ("rating", .float ⟨45, 1⟩),
      ("review_count", .int 128),
      ("badge", .str "SALE"),
      ("is_favorite", .bool false),
      ("image_url", .str "https://via.placeholder.com/200/3498DB/FFFFFF?text=T-Shirt") ],
    .obj [
      ("id", .str "d2"),
      ("name", .str "Denim Jeans"),
      ("price", .int 59),
      ("rating", .float ⟨47, 1⟩),
      ("review_count", .int 256),
      ("is_favorite", .bool true),
      ("image_url", .str "https://via.placeholder.com/200/2C3E50/FFFFFF?text=Jeans") ],
    .obj [
      ("id", .str "d3"),
      ("name", .str "Running Shoes"),
      ("price", .int 89),
      ("original_price", .int 120),
      ("discount", .int 26),
      ("rating", .float ⟨48, 1⟩),
      ("review_count", .int 342),
      ("badge", .str "POPULAR"),
      ("is_favorite", .bool false),
      ("image_url", .str "https://via.placeholder.com/200/3498DB/FFFFFF?text=Shoes") ],
    .obj [
      ("id", .str "d4"),
      ("name", .str "Backpack"),
      ("price", .int 49),
      ("rating", .float ⟨46, 1⟩),
      ("review_count", .int 189),
      ("is_favorite", .bool false),
      ("image_url", .str "https://via.placeholder.com/200/2C3E50/FFFFFF?text=Backpack") ] ]

def getMorningStories : Value :=
  .arr [
    .obj [
      ("id", .str "s1"),
      ("name", .str "New In"),
      ("viewed", .bool false),
      ("image_url", .str "https://via.placeholder.com/70/FF9800/FFFFFF?text=New") ],
    .obj [
      ("id", .str "s2"),
      ("name", .str "Sale"),
      ("viewed", .bool false),
      ("image_url", .str "https://via.placeholder.com/70/FFC107/FFFFFF?text=Sale") ],
    .obj [
      ("id", .str "s3"),
      ("name", .str "Trending"),
      ("viewed", .bool true),
      ("image_url", .str "https://via.placeholder.com/70/FF9800/FFFFFF?text=Hot") ],
    .obj [
      ("id", .str "s4"),
      ("name", .str "Deals"),
      ("viewed", .bool false),
      ("image_url", .str "https://via.placeholder.com/70/FFC107/FFFFFF?text=Deals") ] ]


/-! ## Home screen configs, one per mode -/

def getLateNightModeConfig (clk : Clock) : Option Value := do
  let navigation ← getNavigationConfig "/" "late_night"
  pure (.obj [
    ("screen_id", .str "home"),
    ("layout_type", .str "scroll"),
    ("theme", .obj [
      ("is_dark_mode", .bool true),
      ("primary_color", .str "#0A0A0A"),
      ("background_color", .str "#000000"),
      ("accent_color", .str "#555555"),
      ("font_sizes", .obj [
        ("headline", .float ⟨24, 0⟩),
        ("title", .float ⟨18, 0⟩),
        ("body", .float ⟨14, 0⟩),
        ("caption", .float ⟨11, 0⟩) ]),
      ("border_radius", .float ⟨8, 0⟩),
      ("spacing", .obj [
        ("xs", .float ⟨4, 0⟩),
        ("sm", .float ⟨8, 0⟩),
        ("md", .float ⟨16, 0⟩),
        ("lg", .float ⟨24, 0⟩),
        ("xl", .float ⟨32, 0⟩) ]) ]),
    ("components", .arr [
      .obj [
        ("id", .str "night-message"),
        ("type", .str "header"),
        ("props", .obj [
          ("title", .str "Still browsing?"),
          ("subtitle", .str "Here's what you might like"),
          ("alignment", .str "center"),
          ("showIcon", .bool true),
          ("icon", .str "star") ]),
        ("style", .obj [
          ("padding", .float ⟨24, 0⟩),
          ("fontSize", .float ⟨24, 0⟩),
          ("color", .str "#FFFFFF"),
          ("backgroundColor", .str "#1A1A1A"),
          ("borderRadius", .float ⟨12, 0⟩) ]) ],
      .obj [
        ("id", .str "spacer"),
        ("type", .str "spacer"),
        ("props", .obj [("height", .float ⟨20, 0⟩)]) ],
      .obj [
        ("id", .str "minimal-products"),
        ("type", .str "product_grid"),
        ("props", .obj [
          ("columns", .int 1),
          ("spacing", .float ⟨20, 0⟩),
          ("aspectRatio", .float ⟨15, 1⟩),
          ("products", getMidnightProducts) ]),
        ("style", .obj [
          ("imageHeight", .float ⟨200, 0⟩),
          ("borderRadius", .float ⟨12, 0⟩),
          ("showDiscount", .bool false),
          ("showRating", .bool false),
          ("titleSize", .float ⟨18, 0⟩),
          ("priceSize", .float ⟨20, 0⟩),
          ("priceColor", .str "#FFFFFF"),
          ("elevation", .float ⟨1, 0⟩) ]) ] ]),
    ("navigation", navigation),
    ("metadata", (getMetadata clk "late_night")) ])

def getMorningModeConfig (clk : Clock) : Option Value := do
  let navigation ← getNavigationConfig "/" "morning"
  pure (.obj [
    ("screen_id", .str "home"),
    ("layout_type", .str "scroll"),
    ("theme", .obj [
      ("is_dark_mode", .bool false),
      ("primary_color", .str "#FF9800"),
      ("background_color", .str "#FFFBF5"),
      ("accent_color", .str "#FFC107"),
      ("font_sizes", .obj [
        ("headline", .float ⟨34, 0⟩),
        ("title", .float ⟨20, 0⟩),
        ("body", .float ⟨16, 0⟩),
        ("caption", .float ⟨12, 0⟩) ]),
      ("border_radius", .float ⟨16, 0⟩),
      ("spacing", .obj [
        ("xs", .float ⟨4, 0⟩),
        ("sm", .float ⟨8, 0⟩),
        ("md", .float ⟨16, 0⟩),
        ("lg", .float ⟨24, 0⟩),
        ("xl", .float ⟨32, 0⟩) ]) ]),
    ("components", .arr [
      .obj [
        ("id", .str "morning-greeting"),
        ("type", .str "header"),
        ("props", .obj [
          ("title", .str "Good Morning, People! ☀️"),
          ("subtitle", .str "Start your day with great finds"),
          ("alignment", .str "left") ]),
        ("style", .obj [("padding", .float ⟨20, 0⟩), ("fontSize", .float ⟨34, 0⟩), ("color", .str "#FF9800")]) ],
      .obj [
        ("id", .str "search"),
        ("type", .str "search_bar"),
        ("props", .obj [("placeholder", .str "What are you looking for?"), ("showFilter", .bool true)]),
        ("style", .obj [
          ("margin", .float ⟨16, 0⟩),
          ("backgroundColor", .str "#FFFFFF"),
          ("borderRadius", .float ⟨12, 0⟩) ]) ],
      .obj [
        ("id", .str "morning-stories"),
        ("type", .str "story_circle"),
        ("props", .obj [("stories", getMorningStories)]),
        ("style", .obj [("padding", .float ⟨16, 0⟩)]) ],
      .obj [
        ("id", .str "morning-deals"),
        ("type", .str "banner"),
        ("props", .obj [
          ("title", .str "Early Bird Specials"),
          ("subtitle", .str "Extra 15% off before 9 AM"),
          ("buttonText", .str "Shop Now"),
          ("height", .float ⟨180, 0⟩) ]),
        ("style", .obj [
          ("backgroundColor", .str "#FF9800"),
          ("borderRadius", .float ⟨16, 0⟩),
          ("margin", .float ⟨16, 0⟩),
          ("gradient", .obj [("colors", .arr [.str "#FF9800", .str "#FFC107"])]) ]),
        ("action", .obj [("type", .str "navigate"), ("route", .str "/deals")]) ],
      .obj [
        ("id", .str "categories"),
        ("type", .str "category_chips"),
        ("props", .obj [
          ("categories", .arr [
            .obj [("id", .str "1"), ("name", .str "New In")],
            .obj [("id", .str "2"), ("name", .str "Trending")],
            .obj [("id", .str "3"), ("name", .str "Sale")],
            .obj [("id", .str "4"), ("name", .str "Premium")] ]),
          ("selectedId", .str "1") ]),
        ("style", .obj [("padding", .float ⟨16, 0⟩), ("selectedColor", .str "#FF9800")]) ],
      .obj [
        ("id", .str "featured-products"),
        ("type", .str "product_carousel"),
        ("props", .obj [
          ("products", getMorningProducts),
          ("height", .float ⟨320, 0⟩),
          ("cardWidth", .float ⟨200, 0⟩) ]),
        ("style", .obj [
          ("padding", .float ⟨16, 0⟩),
          ("spacing", .float ⟨12, 0⟩),
          ("borderRadius", .float ⟨12, 0⟩),
          ("imageHeight", .float ⟨180, 0⟩),
          ("showDiscount", .bool true),
          ("showRating", .bool true),
          ("showFavorite", .bool true),
          ("titleSize", .float ⟨16, 0⟩),
          ("priceSize", .float ⟨18, 0⟩),
          ("priceColor", .str "#FF9800"),
          ("elevation", .float ⟨2, 0⟩),
          ("contentPadding", .float ⟨12, 0⟩) ]) ],
      .obj [
        ("id", .str "review"),
        ("type", .str "testimonial_card"),
        ("props", .obj [
          ("name", .str "Sarah M."),
          ("subtitle", .str "Verified Buyer"),
          ("text", .str "Love shopping here in the morning! The early bird deals are amazing and delivery is always on time."),
          ("rating", .float ⟨5, 0⟩) ]),
        ("style", .obj [("margin", .float ⟨16, 0⟩)]) ] ]),
    ("navigation", navigation),
    ("metadata", (getMetadata clk "morning")) ])

def getFlashSaleConfig (clk : Clock) : Option Value := do
  let navigation ← getNavigationConfig "/" "flash_sale"
  pure (.obj [
    ("screen_id", .str "home"),
    ("layout_type", .str "scroll"),
    ("theme", .obj [
      ("is_dark_mode", .bool false),
      ("primary_color", .str "#FF4757"),
      ("background_color", .str "#FFFFFF"),
      ("accent_color", .str "#FF6B6B"),
      ("font_sizes", .obj [
        ("headline", .float ⟨28, 0⟩),
        ("title", .float ⟨18, 0⟩),
        ("body", .float ⟨14, 0⟩),
        ("caption", .float ⟨11, 0⟩) ]),
      ("border_radius", .float ⟨8, 0⟩),
      ("spacing", .obj [
        ("xs", .float ⟨2, 0⟩),
        ("sm", .float ⟨4, 0⟩),
        ("md", .float ⟨8, 0⟩),
        ("lg", .float ⟨12, 0⟩),
        ("xl", .float ⟨16, 0⟩) ]) ]),
    ("components", .arr [
      .obj [
        ("id", .str "flash-countdown"),
        ("type", .str "countdown_timer"),
        ("props", .obj [
          ("label", .str "⚡ FLASH SALE ENDS IN"),
          ("end_time", .str "1:47:23"),
          ("showIcon", .bool true) ]),
        ("style", .obj [
          ("backgroundColor", .str "#FF4757"),
          ("padding", .float ⟨14, 0⟩),
          ("borderRadius", .float ⟨0, 0⟩),
          ("fontSize", .float ⟨18, 0⟩),
          ("gradient", .obj [("colors", .arr [.str "#FF4757", .str "#FF6B6B"])]) ]) ],
      .obj [
        ("id", .str "promo-row"),
        ("type", .str "row"),
        ("props", .obj [("alignment", .str "spaceEvenly")]),
        ("style", .obj [("padding", .float ⟨12, 0⟩)]),
        ("children", .arr [
          .obj [
            ("id", .str "badge1"),
            ("type", .str "promo_badge"),
            ("props", .obj [("text", .str "UP TO 70% OFF")]),
            ("style", .obj [
              ("backgroundColor", .str "#FF4757"),
              ("paddingX", .float ⟨16, 0⟩),
              ("paddingY", .float ⟨8, 0⟩),
              ("borderRadius", .float ⟨20, 0⟩),
              ("fontSize", .float ⟨12, 0⟩) ]) ],
          .obj [
            ("id", .str "badge2"),
            ("type", .str "promo_badge"),
            ("props", .obj [("text", .str "FREE SHIPPING")]),
            ("style", .obj [
              ("backgroundColor", .str "#4CAF50"),
              ("paddingX", .float ⟨16, 0⟩),
              ("paddingY", .float ⟨8, 0⟩),
              ("borderRadius", .float ⟨20, 0⟩),
              ("fontSize", .float ⟨12, 0⟩) ]) ] ]) ],
      .obj [
        ("id", .str "flash-products"),
        ("type", .str "product_grid"),
        ("props", .obj [
          ("columns", .int 2),
          ("spacing", .float ⟨8, 0⟩),
          ("aspectRatio", .float ⟨68, 2⟩),
          ("products", getFlashSaleProducts) ]),
        ("style", .obj [
          ("imageHeight", .float ⟨130, 0⟩),
          ("borderRadius", .float ⟨8, 0⟩),
          ("showDiscount", .bool true),
          ("showRating", .bool false),
          ("showFavorite", .bool false),
          ("titleSize", .float ⟨13, 0⟩),
          ("priceSize", .float ⟨16, 0⟩),
          ("priceColor", .str "#FF4757"),
          ("elevation", .float ⟨1, 0⟩),
          ("contentPadding", .float ⟨8, 0⟩) ]) ],
      .obj [
        ("id", .str "urgency"),
        ("type", .str "container"),
        ("style", .obj [
          ("backgroundColor", .str "#FFF3CD"),
          ("padding", .float ⟨16, 0⟩),
          ("margin", .float ⟨8, 0⟩),
          ("borderRadius", .float ⟨8, 0⟩),
          ("borderColor", .str "#FFB800"),
          ("borderWidth", .float ⟨2, 0⟩) ]),
        ("children", .arr [
          .obj [
            ("id", .str "urgency-text"),
            ("type", .str "header"),
            ("props", .obj [
              ("title", .str "⚠️ Limited Stock!"),
              ("subtitle", .str "Items selling fast. Don't miss out!"),
              ("alignment", .str "center") ]),
            ("style", .obj [
              ("fontSize", .float ⟨16, 0⟩),
              ("color", .str "#856404"),
              ("padding", .float ⟨0, 0⟩),
              ("subtitleSize", .float ⟨13, 0⟩) ]) ] ]) ] ]),
    ("navigation", navigation),
    ("metadata", (getMetadata clk "flash_sale")) ])

def getAfternoonModeConfig (clk : Clock) : Option Value := do
  let navigation ← getNavigationConfig "/" "afternoon"
  pure (.obj [
    ("screen_id", .str "home"),
    ("layout_type", .str "scroll"),
    ("theme", .obj [
      ("is_dark_mode", .bool false),
      ("primary_color", .str "#00BCD4"),
      ("background_color", .str "#F0F8FF"),
      ("accent_color", .str "#00ACC1"),
      ("font_sizes", .obj [
        ("headline", .float ⟨30, 0⟩),
        ("title", .float ⟨19, 0⟩),
        ("body", .float ⟨15, 0⟩),
        ("caption", .float ⟨12, 0⟩) ]),
      ("border_radius", .float ⟨12, 0⟩),
      ("spacing", .obj [
        ("xs", .float ⟨4, 0⟩),
        ("sm", .float ⟨8, 0⟩),
        ("md", .float ⟨16, 0⟩),
        ("lg", .float ⟨24, 0⟩),
        ("xl", .float ⟨32, 0⟩) ]) ]),
    ("components", .arr [
      .obj [
        ("id", .str "afternoon-header"),
        ("type", .str "header"),
        ("props", .obj [
          ("title", .str "Discover Something New"),
          ("subtitle", .str "Curated picks just for you"),
          ("alignment", .str "left") ]),
        ("style", .obj [("padding", .float ⟨18, 0⟩), ("fontSize", .float ⟨30, 0⟩), ("color", .str "#00BCD4")]) ],
      .obj [
        ("id", .str "categories-horizontal"),
        ("type", .str "horizontal_list"),
        ("props", .obj [
          ("height", .float ⟨140, 0⟩),
          ("itemWidth", .float ⟨130, 0⟩),
          ("items", .arr [
            .obj [
              ("id", .str "cat1"),
              ("title", .str "Electronics"),
              ("image_url", .str "https://via.placeholder.com/130x100/00BCD4/FFFFFF?text=Electronics") ],
            .obj [
              ("id", .str "cat2"),
              ("title", .str "Fashion"),
              ("image_url", .str "https://via.placeholder.com/130x100/00ACC1/FFFFFF?text=Fashion") ],
            .obj [
              ("id", .str "cat3"),
              ("title", .str "Home"),
              ("image_url", .str "https://via.placeholder.com/130x100/0097A7/FFFFFF?text=Home") ],
            .obj [
              ("id", .str "cat4"),
              ("title", .str "Sports"),
              ("image_url", .str "https://via.placeholder.com/130x100/00838F/FFFFFF?text=Sports") ] ]) ]),
        ("style", .obj [("padding", .float ⟨16, 0⟩), ("spacing", .float ⟨12, 0⟩)]) ],
      .obj [
        ("id", .str "afternoon-banner"),
        ("type", .str "banner"),
        ("props", .obj [
          ("title", .str "Midday Break Deals"),
          ("subtitle", .str "Take a break, save big"),
          ("buttonText", .str "Browse Deals"),
          ("height", .float ⟨200, 0⟩),
          ("alignment", .str "center") ]),
        ("style", .obj [
          ("backgroundColor", .str "#00BCD4"),
          ("borderRadius", .float ⟨14, 0⟩),
          ("margin", .float ⟨16, 0⟩) ]) ],
      .obj [
        ("id", .str "afternoon-products"),
        ("type", .str "product_grid"),
        ("props", .obj [
          ("columns", .int 2),
          ("spacing", .float ⟨14, 0⟩),
          ("aspectRatio", .float ⟨75, 2⟩),
          ("products", getAfternoonProducts) ]),
        ("style", .obj [
          ("imageHeight", .float ⟨200, 0⟩),
          ("borderRadius", .float ⟨12, 0⟩),
          ("showDiscount", .bool true),
          ("showRating", .bool true),
          ("showFavorite", .bool true),
          ("titleSize", .float ⟨17, 0⟩),
          ("priceSize", .float ⟨19, 0⟩),
          ("priceColor", .str "#00BCD4"),
          ("elevation", .float ⟨2, 0⟩),
          ("contentPadding", .float ⟨12, 0⟩) ]) ] ]),
    ("navigation", navigation),
    ("metadata", (getMetadata clk "afternoon")) ])

def getEveningConfig (clk : Clock) : Option Value := do
  let navigation ← getNavigationConfig "/" "evening"
  pure (.obj [
    ("screen_id", .str "home"),
    ("layout_type", .str "scroll"),
    ("theme", .obj [
      ("is_dark_mode", .bool false),
      ("primary_color", .str "#6C5CE7"),
      ("background_color", .str "#FAF9F6"),
      ("accent_color", .str "#A29BFE"),
      ("font_sizes", .obj [
        ("headline", .float ⟨36, 0⟩),
        ("title", .float ⟨22, 0⟩),
        ("body", .float ⟨17, 0⟩),
        ("caption", .float ⟨13, 0⟩) ]),
      ("border_radius", .float ⟨16, 0⟩),
      ("spacing", .obj [
        ("xs", .float ⟨4, 0⟩),
        ("sm", .float ⟨8, 0⟩),
        ("md", .float ⟨18, 0⟩),
        ("lg", .float ⟨28, 0⟩),
        ("xl", .float ⟨40, 0⟩) ]) ]),
    ("components", .arr [
      .obj [
        ("id", .str "evening-header"),
        ("type", .str "header"),
        ("props", .obj [
          ("title", .str "Evening Selections"),
          ("subtitle", .str "Curated with care for tonight"),
          ("alignment", .str "center"),
          ("showIcon", .bool true),
          ("icon", .str "star") ]),
        ("style", .obj [
          ("padding", .float ⟨20, 0⟩),
          ("fontSize", .float ⟨36, 0⟩),
          ("color", .str "#6C5CE7"),
          ("subtitleSize", .float ⟨18, 0⟩),
          ("subtitleColor", .str "#A29BFE"),
          ("subtitleSpacing", .float ⟨10, 0⟩),
          ("iconSize", .float ⟨32, 0⟩),
          ("letterSpacing", .float ⟨5, 1⟩) ]) ],
      .obj [
        ("id", .str "evening-banner"),
        ("type", .str "animated_banner"),
        ("props", .obj [
          ("title", .str "Sunset Collection"),
          ("subtitle", .str "Premium pieces for your evening"),
          ("buttonText", .str "Explore"),
          ("height", .float ⟨300, 0⟩),
          ("duration", .int 1000) ]),
        ("style", .obj [
          ("backgroundColor", .str "#6C5CE7"),
          ("borderRadius", .float ⟨18, 0⟩),
          ("margin", .float ⟨20, 0⟩),
          ("titleSize", .float ⟨32, 0⟩),
          ("subtitleSize", .float ⟨18, 0⟩),
          ("gradient", .obj [("colors", .arr [.str "#6C5CE7", .str "#A29BFE"])]) ]) ],
      .obj [
        ("id", .str "featured-carousel"),
        ("type", .str "product_carousel"),
        ("props", .obj [
          ("products", getEveningProducts),
          ("height", .float ⟨350, 0⟩),
          ("cardWidth", .float ⟨240, 0⟩) ]),
        ("style", .obj [
          ("padding", .float ⟨20, 0⟩),
          ("spacing", .float ⟨16, 0⟩),
          ("borderRadius", .float ⟨16, 0⟩),
          ("imageHeight", .float ⟨220, 0⟩),
          ("showDiscount", .bool false),
          ("showRating", .bool true),
          ("showFavorite", .bool true),
          ("titleSize", .float ⟨19, 0⟩),
          ("priceSize", .float ⟨22, 0⟩),
          ("priceColor", .str "#6C5CE7"),
          ("elevation", .float ⟨4, 0⟩),
          ("contentPadding", .float ⟨14, 0⟩) ]) ],
      .obj [
        ("id", .str "evening-grid"),
        ("type", .str "product_grid"),
        ("props", .obj [
          ("columns", .int 2),
          ("spacing", .float ⟨18, 0⟩),
          ("aspectRatio", .float ⟨8, 1⟩),
          ("products", getEveningProducts) ]),
        ("style", .obj [
          ("imageHeight", .float ⟨220, 0⟩),
          ("borderRadius", .float ⟨16, 0⟩),
          ("showDiscount", .bool false),
          ("showRating", .bool true),
          ("showFavorite", .bool true),
          ("titleSize", .float ⟨18, 0⟩),
          ("priceSize", .float ⟨20, 0⟩),
          ("priceColor", .str "#6C5CE7"),
          ("elevation", .float ⟨3, 0⟩),
          ("contentPadding", .float ⟨14, 0⟩) ]) ] ]),
    ("navigation", navigation),
    ("metadata", (getMetadata clk "evening")) ])

def getNightModeConfig (clk : Clock) : Option Value := do
  let navigation ← getNavigationConfig "/" "night"
  pure (.obj [
    ("screen_id", .str "home"),
    ("layout_type", .str "scroll"),
    ("theme", .obj [
      ("is_dark_mode", .bool true),
      ("primary_color", .str "#1A1A1A"),
      ("background_color", .str "#0A0A0A"),
      ("accent_color", .str "#FFD700"),
      ("font_sizes", .obj [
        ("headline", .float ⟨40, 0⟩),
        ("title", .float ⟨28, 0⟩),
        ("body", .float ⟨18, 0⟩),
        ("caption", .float ⟨14, 0⟩) ]),
      ("border_radius", .float ⟨20, 0⟩),
      ("spacing", .obj [
        ("xs", .float ⟨4, 0⟩),
        ("sm", .float ⟨8, 0⟩),
        ("md", .float ⟨20, 0⟩),
        ("lg", .float ⟨32, 0⟩),
        ("xl", .float ⟨48, 0⟩) ]) ]),
    ("components", .arr [
      .obj [
        ("id", .str "night-hero"),
        ("type", .str "banner"),
        ("props", .obj [
          ("title", .str "Midnight Collection"),
          ("subtitle", .str "Curated elegance for the night"),
          ("height", .float ⟨400, 0⟩),
          ("alignment", .str "centerLeft") ]),
        ("style", .obj [
          ("backgroundColor", .str "#1A1A2E"),
          ("borderRadius", .float ⟨20, 0⟩),
          ("margin", .float ⟨24, 0⟩),
          ("titleSize", .float ⟨40, 0⟩),
          ("subtitleSize", .float ⟨20, 0⟩),
          ("contentPadding", .float ⟨32, 0⟩) ]) ],
      .obj [
        ("id", .str "spacer"),
        ("type", .str "spacer"),
        ("props", .obj [("height", .float ⟨32, 0⟩)]) ],
      .obj [
        ("id", .str "night-products"),
        ("type", .str "product_grid"),
        ("props", .obj [
          ("columns", .int 1),
          ("spacing", .float ⟨24, 0⟩),
          ("aspectRatio", .float ⟨12, 1⟩),
          ("products", getNightProducts) ]),
        ("style", .obj [
          ("imageHeight", .float ⟨300, 0⟩),
          ("borderRadius", .float ⟨20, 0⟩),
          ("showDiscount", .bool false),
          ("showRating", .bool false),
          ("showFavorite", .bool true),
          ("titleSize", .float ⟨24, 0⟩),
          ("priceSize", .float ⟨28, 0⟩),
          ("priceColor", .str "#FFD700"),
          ("elevation", .float ⟨2, 0⟩),
          ("contentPadding", .float ⟨16, 0⟩) ]) ] ]),
    ("navigation", navigation),
    ("metadata", (getMetadata clk "night")) ])

def getDayModeConfig (clk : Clock) : Option Value := do
  let navigation ← getNavigationConfig "/" "day"
  pure (.obj [
    ("screen_id", .str "home"),
    ("layout_type", .str "scroll"),
    ("theme", .obj [
      ("is_dark_mode", .bool false),
      ("primary_color", .str "#2C3E50"),
      ("background_color", .str "#FFFFFF"),
      ("accent_color", .str "#3498DB"),
      ("font_sizes", .obj [
        ("headline", .float ⟨32, 0⟩),
        ("title", .float ⟨20, 0⟩),
        ("body", .float ⟨16, 0⟩),
        ("caption", .float ⟨12, 0⟩) ]),
      ("border_radius", .float ⟨12, 0⟩),
      ("spacing", .obj [
        ("xs", .float ⟨4, 0⟩),
        ("sm", .float ⟨8, 0⟩),
        ("md", .float ⟨16, 0⟩),
        ("lg", .float ⟨24, 0⟩),
        ("xl", .float ⟨32, 0⟩) ]) ]),
    ("components", .arr [
      .obj [
        ("id", .str "header"),
        ("type", .str "header"),
        ("props", .obj [
          ("title", .str "Welcome Back"),
          ("subtitle", .str "What are you shopping for today?"),
          ("alignment", .str "left") ]),
        ("style", .obj [("padding", .float ⟨16, 0⟩), ("fontSize", .float ⟨32, 0⟩), ("color", .str "#2C3E50")]) ],
      .obj [
        ("id", .str "promo-banner"),
        ("type", .str "banner"),
        ("props", .obj [
          ("title", .str "New Arrivals"),
          ("subtitle", .str "Fresh styles just in"),
          ("height", .float ⟨200, 0⟩),
          ("alignment", .str "centerLeft") ]),
        ("style", .obj [
          ("backgroundColor", .str "#3498DB"),
          ("borderRadius", .float ⟨16, 0⟩),
          ("margin", .float ⟨16, 0⟩) ]) ],
      .obj [
        ("id", .str "products"),
        ("type", .str "product_grid"),
        ("props", .obj [
          ("columns", .int 2),
          ("spacing", .float ⟨16, 0⟩),
          ("aspectRatio", .float ⟨75, 2⟩),
          ("products", getDayProducts) ]),
        ("style", .obj [
          ("imageHeight", .float ⟨200, 0⟩),
          ("borderRadius", .float ⟨12, 0⟩),
          ("showDiscount", .bool true),
          ("showRating", .bool true),
          ("showFavorite", .bool true),
          ("titleSize", .float ⟨16, 0⟩),
          ("priceSize", .float ⟨18, 0⟩),
          ("priceColor", .str "#2C3E50"),
          ("elevation", .float ⟨2, 0⟩),
          ("contentPadding", .float ⟨12, 0⟩) ]) ] ]),
    ("navigation", navigation),
    ("metadata", (getMetadata clk "day")) ])


def getHomeScreenConfig (clk : Clock) (mode userId : String) : Option Value :=
  if mode = "late_night" then getLateNightModeConfig clk
  else if mode = "morning" then getMorningModeConfig clk
  else if mode = "flash_sale" then getFlashSaleConfig clk
  else if mode = "afternoon" then getAfternoonModeConfig clk
  else if mode = "evening" then getEveningConfig clk
  else if mode = "night" then getNightModeConfig clk
  else getDayModeConfig clk

/-! ## Other screens -/

def getProductScreenConfig (clk : Clock) (mode productID : String) : Option Value := do
  let navigation ← getNavigationConfig "/product" mode
  pure (.obj [
    ("screen_id", .str "product"),
    ("layout_type", .str "scroll"),
    ("theme", (getThemeForMode mode)),
    ("components", .arr [
      .obj [
        ("id", .str "product-images"),
        ("type", .str "image"),
        ("props", .obj [
          ("url", .str ("https://via.placeholder.com/400x500/6C5CE7/FFFFFF?text=Product+" ++ productID)) ]),
        ("style", .obj [
          ("width", .float ⟨400, 0⟩),
          ("height", .float ⟨500, 0⟩),
          ("borderRadius", .float ⟨0, 0⟩),
          ("fit", .str "cover") ]) ],
      .obj [
        ("id", .str "product-info"),
        ("type", .str "container"),
        ("style", .obj [("padding", .float ⟨24, 0⟩), ("backgroundColor", .str "#FFFFFF")]),
        ("children", .arr [
          .obj [
            ("id", .str "title"),
            ("type", .str "header"),
            ("props", .obj [
              ("title", .str "Premium Leather Jacket"),
              ("subtitle", .str "Handcrafted Excellence") ]),
            ("style", .obj [("fontSize", .float ⟨28, 0⟩), ("padding", .float ⟨0, 0⟩)]) ],
          .obj [
            ("id", .str "rating"),
            ("type", .str "rating"),
            ("props", .obj [("rating", .float ⟨48, 1⟩), ("maxStars", .int 5), ("showValue", .bool true)]),
            ("style", .obj [("size", .float ⟨20, 0⟩), ("color", .str "#FFD700")]) ],
          .obj [
            ("id", .str "price"),
            ("type", .str "header"),
            ("props", .obj [("title", .str "$299.99")]),
            ("style", .obj [
              ("fontSize", .float ⟨36, 0⟩),
              ("fontWeight", .str "bold"),
              ("color", .str "#2C3E50"),
              ("padding", .float ⟨8, 0⟩) ]) ],
          .obj [
            ("id", .str "buy-button"),
            ("type", .str "button"),
            ("props", .obj [
              ("label", .str "Add to Cart"),
              ("variant", .str "primary"),
              ("fullWidth", .bool true),
              ("icon", .str "cart") ]),
            ("style", .obj [
              ("backgroundColor", .str "#4CAF50"),
              ("paddingY", .float ⟨18, 0⟩),
              ("borderRadius", .float ⟨12, 0⟩),
              ("margin", .float ⟨16, 0⟩) ]) ] ]) ] ]),
    ("navigation", navigation),
    ("metadata", (getMetadata clk mode)) ])

def getCartScreenConfig (clk : Clock) (mode : String) : Option Value := do
  let navigation ← getNavigationConfig "/cart" mode
  pure (.obj [
    ("screen_id", .str "cart"),
    ("layout_type", .str "scroll"),
    ("theme", (getThemeForMode mode)),
    ("components", .arr [
      .obj [
        ("id", .str "cart-header"),
        ("type", .str "header"),
        ("props", .obj [("title", .str "Shopping Cart"), ("subtitle", .str "3 items")]) ],
      .obj [
        ("id", .str "checkout-button"),
        ("type", .str "button"),
        ("props", .obj [
          ("label", .str "Proceed to Checkout - $589.97"),
          ("variant", .str "primary"),
          ("fullWidth", .bool true) ]),
        ("style", .obj [("backgroundColor", .str "#4CAF50"), ("margin", .float ⟨16, 0⟩)]) ] ]),
    ("navigation", navigation),
    ("metadata", (getMetadata clk mode)) ])

def getSearchScreenConfig (clk : Clock) (mode : String) : Option Value := do
  let navigation ← getNavigationConfig "/search" mode
  pure (.obj [
    ("screen_id", .str "search"),
    ("layout_type", .str "scroll"),
    ("theme", (getThemeForMode mode)),
    ("components", .arr [
      .obj [
        ("id", .str "search-input"),
        ("type", .str "search_bar"),
        ("props", .obj [("placeholder", .str "Search products..."), ("showFilter", .bool true)]) ] ]),
    ("navigation", navigation),
    ("metadata", (getMetadata clk mode)) ])

def getFavoritesScreenConfig (clk : Clock) (mode : String) : Option Value := do
  let navigation ← getNavigationConfig "/favorites" mode
  pure (.obj [
    ("screen_id", .str "favorites"),
    ("layout_type", .str "grid"),
    ("theme", (getThemeForMode mode)),
    ("components", .arr [
      .obj [
        ("id", .str "favorites-grid"),
        ("type", .str "product_grid"),
        ("props", .obj [("columns", .int 2), ("products", getDayProducts)]) ] ]),
    ("navigation", navigation),
    ("metadata", (getMetadata clk mode)) ])

def getProfileScreenConfig (clk : Clock) (mode : String) : Option Value := do
  let navigation ← getNavigationConfig "/profile" mode
  pure (.obj [
    ("screen_id", .str "profile"),
    ("layout_type", .str "scroll"),
    ("theme", (getThemeForMode mode)),
    ("components", .arr [
      .obj [
        ("id", .str "avatar"),
        ("type", .str "avatar"),
        ("props", .obj [("name", .str "John Doe")]),
        ("style", .obj [("size", .float ⟨100, 0⟩)]) ] ]),
    ("navigation", navigation),
    ("metadata", (getMetadata clk mode)) ])


/-! ## UI config handler (`handleUiConfig`) -/

/-- What `handleUiConfig` reads from the request: the query parameters `screen` and `id`
and the header `X-User-ID`, each "" when absent. -/
structure Request where
  screen : String
  id : String
  userId : String

/-- What `handleUiConfig` writes: the response headers it sets, in order, and the
descriptor handed to the JSON encoder. -/
structure Response where
  headers : List (String × String)
  body : Value

/-- The `switch screen` of `handleUiConfig`, as a function of the variables it reads. -/
def dispatchScreen (clk : Clock) (screen mode userId productID : String) : Option Value :=
  if screen = "/" ∨ screen = "home" then getHomeScreenConfig clk mode userId
  else if screen = "/product" then getProductScreenConfig clk mode productID
  else if screen = "/cart" then getCartScreenConfig clk mode
  else if screen = "/profile" then getProfileScreenConfig clk mode
  else if screen = "/search" then getSearchScreenConfig clk mode
  else if screen = "/favorites" then getFavoritesScreenConfig clk mode
  else getHomeScreenConfig clk mode userId

def handleUiConfig (clk : Clock) (r : Request) : Option Response := do
  let screen := if r.screen = "" then "/" else r.screen
  let userId := r.userId
  let mode := "night"
  let config ← dispatchScreen clk screen mode userId r.id
  pure {
    headers := [
      ("Content-Type", "application/json"),
      ("X-UI-Mode", mode),
      ("X-Generated-At", clk.rfc3339),
      ("Access-Control-Allow-Origin", "*") ],
    body := config }

/-! ## Reading a descriptor -/

/-- String field of a map value. -/
def Value.getStr (v : Value) (k : String) : Option String :=
  (v.get k).bind Value.asString

/-- Boolean field of a map value. -/
def Value.getBool (v : Value) (k : String) : Option Bool :=
  match v.get k with
  | some (.bool b) => some b
  | _ => none

/-- The items of `getNavigationConfig(screen, mode)["bottom_nav"]`. -/
def bottomNav (screen mode : String) : Option (List Value) := do
  let nav ← getNavigationConfig screen mode
  match ← nav.get "bottom_nav" with
  | .arr items => some items
  | _ => none

/-- Number of items whose `is_active` is `true`. -/
def activeCount (items : List Value) : Nat :=
  (items.filter (fun it => it.getBool "is_active" == some true)).length

/-- Screen as the active test and the back-button test of `getNavigationConfig` read it:
"home" stands for "/", every other string for itself. -/
def homeAlias (screen : String) : String :=
  if screen = "home" then "/" else screen

/-! ## Definitions that follow the words of the specification -/

/-- Route normalization as the specification words it: "" and "home" both normalize
to "/", every other route is unchanged. -/
def specNormalize (route : String) : String :=
  if route = "" ∨ route = "home" then "/" else route

/-- Base label of a navigation entry, by entry name. -/
def specBaseLabel (name : String) : String :=
  if name = "home" then "Home"
  else if name = "search" then "Search"
  else if name = "cart" then "Cart"
  else if name = "favorites" then "Favorites"
  else if name = "profile" then "Profile"
  else ""

/-- Label override table of the specification: the override for (mode, entry) when one
applies, the base label otherwise. -/
def specLabel (mode name : String) : String :=
  if mode = "evening" ∧ name = "home" then "Discover"
  else if mode = "evening" ∧ name = "favorites" then "Saved"
  else if mode = "evening" ∧ name = "profile" then "You"
  else if mode = "flash_sale" ∧ name = "home" then "Deals"
  else if mode = "night" ∧ name = "search" then "Explore"
  else specBaseLabel name

/-- Route to title table of the specification. -/
def specTitleTable : List (String × String) :=
  [("/", ""), ("home", ""), ("/search", "Search"), ("/cart", "Cart"), ("/favorites", "Favorites"),
   ("/profile", "Profile"), ("/product", "Product Details")]

/-! ## Shape of the navigation state, mode by mode -/

/-- A navigation entry after the loop of `getNavigationConfig` has marked it. -/
def navItem (id label icon route : String) (active : Bool) : Value :=
  .obj [("id", .str id), ("label", .str label), ("icon", .str icon), ("route", .str route),
    ("is_active", .bool active)]

/-- The map `getNavigationConfig` returns, given its marked items. -/
def navState (screen : String) (items : List Value) : Value :=
  .obj [("bottom_nav", .arr items), ("top_actions", .arr []),
    ("show_back_button", .bool (screen != "/" && screen != "home")),
    ("title", .str (getScreenTitle screen))]

/-- The marked items of each mode, as the code produces them; proved equal to the code's
result in `getNavigationConfig_eq`. -/
def markedItems (screen mode : String) : List Value :=
  if mode = "late_night" then
    [navItem "nav-home" "Home" "home" "/" (screen == "/" || screen == "home"),
     navItem "nav-profile" "Profile" "person" "/profile" (screen == "/profile")]
  else if mode = "flash_sale" then
    [navItem "nav-home" "Deals" "home" "/" (screen == "/" || screen == "home"),
     navItem "nav-cart" "Cart" "cart" "/cart" (screen == "/cart")]
  else if mode = "evening" then
    [navItem "nav-home" "Discover" "home" "/" (screen == "/" || screen == "home"),
     navItem "nav-favorites" "Saved" "favorite" "/favorites" (screen == "/favorites"),
     navItem "nav-profile" "You" "person" "/profile" (screen == "/profile")]
  else if mode = "night" then
    [navItem "nav-home" "Home" "home" "/" (screen == "/" || screen == "home"),
     navItem "nav-search" "Explore" "search" "/search" (screen == "/search"),
     navItem "nav-favorites" "Favorites" "favorite" "/favorites" (screen == "/favorites"),
     navItem "nav-profile" "Profile" "person" "/profile" (screen == "/profile")]
  else
    [navItem "nav-home" "Home" "home" "/" (screen == "/" || screen == "home"),
     navItem "nav-search" "Search" "search" "/search" (screen == "/search"),
     navItem "nav-cart" "Cart" "cart" "/cart" (screen == "/cart"),
     navItem "nav-profile" "Profile" "person" "/profile" (screen == "/profile")]

/-! ## Reading the composed descriptor -/

/-- The screen names the `switch screen` of `handleUiConfig` has a case for. -/
def knownScreens : List String :=
  ["/", "home", "/product", "/cart", "/profile", "/search", "/favorites"]

/-- The seven mode names `getCurrentMode` can return. -/
def modeNames : List String :=
  ["late_night", "morning", "day", "flash_sale", "afternoon", "evening", "night"]

mutual
/-- A component node followed by the nodes nested below it through `children`. -/
def nodeTree : Value → List Value
  | .obj entries => .obj entries :: nestedNodes entries
  | v => [v]
/-- The nodes below a component, found in the slice stored under its key `children`. -/
def nestedNodes : List (String × Value) → List Value
  | [] => []
  | (k, .arr items) :: rest =>
    if k = "children" then nodeForest items ++ nestedNodes rest else nestedNodes rest
  | _ :: rest => nestedNodes rest
/-- The nodes of a sequence of components, each with the nodes nested below it. -/
def nodeForest : List Value → List Value
  | [] => []
  | v :: vs => nodeTree v ++ nodeForest vs
end

/-- All component nodes of a descriptor: the elements of `components` and their nested
children. -/
def componentNodes (d : Value) : Option (List Value) :=
  match d.get "components" with
  | some (.arr comps) => some (nodeForest comps)
  | _ => none

/-- The four colour fields of a theme: `is_dark_mode`, `primary_color`, `background_color`,
`accent_color`. -/
def palette (theme : Value) : Option Bool × Option String × Option String × Option String :=
  (theme.getBool "is_dark_mode", theme.getStr "primary_color", theme.getStr "background_color",
    theme.getStr "accent_color")

/-- A size stored under `key` of the map stored under `group` of a theme is present and
positive. -/
def hasPositiveSize (theme : Value) (group key : String) : Bool :=
  match (theme.get group).bind (fun g => g.get key) with
  | some (.float d) => decide (0 < d.mant)
  | _ => false

/-- Component types of the template library, as the specification lists them. -/
def specComponentTypes : List String :=
  ["header", "spacer", "banner", "animated_banner", "search_bar", "story_circle",
   "category_chips", "horizontal_list", "product_grid", "product_carousel", "countdown_timer",
   "promo_badge", "container", "row", "rating", "button", "avatar"]

/-- Id and type of a component node. -/
def idAndType (n : Value) : Option String × Option String :=
  (n.getStr "id", n.getStr "type")

/-! ## Shape of the composed descriptors, routine by routine -/

/-- The map every composition routine returns, given its six fields. -/
def descriptor (screenId layoutType : String) (theme : Value) (components : List Value)
    (navigation metadata : Value) : Value :=
  .obj [("screen_id", .str screenId), ("layout_type", .str layoutType), ("theme", theme),
    ("components", .arr components), ("navigation", navigation), ("metadata", metadata)]

/-- Id and type of the component nodes of each composition routine, in source order: the seven
home routines (late_night, morning, flash_sale, afternoon, evening, night, day), then product,
cart, profile, search and favorites; proved to be what the code builds in
`dispatchScreen_nodes`. -/
def routineNodes : List (List (Option String × Option String)) :=
  [ [(some "night-message", some "header"), (some "spacer", some "spacer"),
     (some "minimal-products", some "product_grid")],
    [(some "morning-greeting", some "header"), (some "search", some "search_bar"),
     (some "morning-stories", some "story_circle"), (some "morning-deals", some "banner"),
     (some "categories", some "category_chips"),
     (some "featured-products", some "product_carousel"),
     (some "review", some "testimonial_card")],
    [(some "flash-countdown", some "countdown_timer"), (some "promo-row", some "row"),
     (some "badge1", some "promo_badge"), (some "badge2", some "promo_badge"),
     (some "flash-products", some "product_grid"), (some "urgency", some "container"),
     (some "urgency-text", some "header")],
    [(some "afternoon-header", some "header"),
     (some "categories-horizontal", some "horizontal_list"),
     (some "afternoon-banner", some "banner"), (some "afternoon-products", some "product_grid")],
    [(some "evening-header", some "header"), (some "evening-banner", some "animated_banner"),
     (some "featured-carousel", some "product_carousel"),
     (some "evening-grid", some "product_grid")],
    [(some "night-hero", some "banner"), (some "spacer", some "spacer"),
     (some "night-products", some "product_grid")],
    [(some "header", some "header"), (some "promo-banner", some "banner"),
     (some "products", some "product_grid")],
    [(some "product-images", some "image"), (some "product-info", some "container"),
     (some "title", some "header"), (some "rating", some "rating"),
     (some "price", some "header"), (some "buy-button", some "button")],
    [(some "cart-header", some "header"), (some "checkout-button", some "button")],
    [(some "avatar", some "avatar")],
    [(some "search-input", some "search_bar")],
    [(some "favorites-grid", some "product_grid")] ]

/-! ## Product catalog (`products.go`) -/

/-- The struct `Product`; `Discount` is the pointer field, `none` for `nil`. -/
structure Product where
  ID : String
  Name : String
  Price : Dec
  ImageURL : String
  Description : String
  Discount : Option Int
  deriving DecidableEq, Repr

def getAllProducts : List Product :=
  let discount15 : Int := 15
  let discount25 : Int := 25
  let discount40 : Int := 40
  [ { ID := "prod_1", Name := "Premium Leather Jacket", Price := ⟨59998, 2⟩,
      ImageURL := "https://images.unsplash.com/photo-1551028719-00167b16eac5",
      Description := "Handcrafted Italian leather", Discount := none },
    { ID := "prod_2", Name := "Silk Evening Dress", Price := ⟨79998, 2⟩,
      ImageURL := "https://images.unsplash.com/photo-1595777457583-95e059d581b8",
      Description := "Elegant and timeless", Discount := none },
    { ID := "prod_3", Name := "Designer Sunglasses", Price := ⟨31998, 2⟩,
      ImageURL := "https://images.unsplash.com/photo-1572635196237-14b3f281503f",
      Description := "UV protection with style", Discount := some discount15 },
    { ID := "prod_4", Name := "Cashmere Sweater", Price := ⟨49998, 2⟩,
      ImageURL := "https://images.unsplash.com/photo-1576566588028-4147f3842f27",
      Description := "Luxuriously soft", Discount := none },
    { ID := "prod_5", Name := "Oxford Dress Shoes", Price := ⟨37998, 2⟩,
      ImageURL := "https://images.unsplash.com/photo-1614252369475-531eba835eb1",
      Description := "Handmade in Italy", Discount := some discount25 },
    { ID := "prod_6", Name := "Minimalist Watch", Price := ⟨89998, 2⟩,
      ImageURL := "https://images.unsplash.com/photo-1523275335684-37898b6baf30",
      Description := "Swiss movement", Discount := none },
    { ID := "prod_7", Name := "Wool Overcoat", Price := ⟨99998, 2⟩,
      ImageURL := "https://images.unsplash.com/photo-1539533018447-63fcce2678e3",
      Description := "Winter elegance", Discount := none },
    { ID := "prod_8", Name := "Leather Handbag", Price := ⟨69998, 2⟩,
      ImageURL := "https://images.unsplash.com/photo-1584917865442-de89df76afd3",
      Description := "Spacious and stylish", Discount := some discount40 } ]

/-- The loop of `getProductByID` returns the first product with the id; after the loop the
default product is returned. -/
def getProductByID (id : String) : Product :=
  match getAllProducts.find? (fun p => p.ID == id) with
  | some p => p
  | none =>
    { ID := id, Name := "Unknown Product", Price := ⟨19998, 2⟩, ImageURL := "",
      Description := "Product not found", Discount := none }

/-! ## Startup banner (`main.go`) -/

/-- The schedule the startup banner of `main` prints, line by line: Night Mode 8PM - 8AM,
Day Mode 8AM - 12PM, Flash Sale 12PM - 2PM, Evening Mode 6PM - 8PM; each with the mode name
the line announces. -/
def bannerSchedule : List ((Int → Bool) × String) :=
  [ (fun hour => decide (hour ≥ 20) || decide (hour < 8), "night"),
    (fun hour => decide (hour ≥ 8) && decide (hour < 12), "day"),
    (fun hour => decide (hour ≥ 12) && decide (hour < 14), "flash_sale"),
    (fun hour => decide (hour ≥ 18) && decide (hour < 20), "evening") ]

/-- The mode the banner announces for an hour, when one of its lines covers the hour. -/
def bannerMode (hour : Int) : Option String :=
  (bannerSchedule.find? (fun c => c.1 hour)).map (fun c => c.2)

/-! ## Depth of the component tree -/

mutual
/-- Depth of the tree below and including a component node: 1 for a node without children. -/
def nodeDepth : Value → Nat
  | .obj entries => 1 + nestedDepth entries
  | _ => 1
/-- Depth of the forest stored under the key `children` of a component, 0 without it. -/
def nestedDepth : List (String × Value) → Nat
  | [] => 0
  | (k, .arr items) :: rest =>
    if k = "children" then max (forestDepth items) (nestedDepth rest) else nestedDepth rest
  | _ :: rest => nestedDepth rest
/-- Depth of a sequence of components: the largest depth of its nodes. -/
def forestDepth : List Value → Nat
  | [] => 0
  | v :: vs => max (nodeDepth v) (forestDepth vs)
end

/-! ## Properties of the navigation state and of the mode resolver -/

/-- The navigation state the code returns, for every screen and mode: it never fails, and its
items are those of `markedItems`. -/
theorem getNavigationConfig_eq (screen mode : String) :
    getNavigationConfig screen mode = some (navState screen (markedItems screen mode)) := by
  by_cases h1 : mode = "late_night"
  · subst h1
    simp [getNavigationConfig, selectNavItems, forEachItem, allNavItems, markNavItem,
      Value.asMap, Value.asString, mapGet, mapSet, navItem, navState, markedItems]
  by_cases h2 : mode = "flash_sale"
  · subst h2
    simp [getNavigationConfig, selectNavItems, forEachItem, allNavItems, markNavItem,
      Value.asMap, Value.asString, mapGet, mapSet, navItem, navState, markedItems]
  by_cases h3 : mode = "evening"
  · subst h3
    simp [getNavigationConfig, selectNavItems, forEachItem, allNavItems, markNavItem,
      Value.asMap, Value.asString, mapGet, mapSet, navItem, navState, markedItems]
  by_cases h4 : mode = "night"
  · subst h4
    simp [getNavigationConfig, selectNavItems, forEachItem, allNavItems, markNavItem,
      Value.asMap, Value.asString, mapGet, mapSet, navItem, navState, markedItems]
  simp [getNavigationConfig, selectNavItems, forEachItem, allNavItems, markNavItem,
    Value.asMap, Value.asString, mapGet, mapSet, navItem, navState, markedItems, h1, h2, h3, h4]

/-- The `bottom_nav` items the code returns, for every screen and mode. -/
theorem bottomNav_eq (screen mode : String) :
    bottomNav screen mode = some (markedItems screen mode) := by
  simp [bottomNav, getNavigationConfig_eq, navState, Value.get, mapGet]

/-- Claim C1. For every hour h with 0 <= h < 24, `getCurrentMode` returns late_night on [0,6),
morning on [6,9), day on [9,12), flash_sale on [12,14), afternoon on [14,17), evening on [17,20)
and night on [20,24). -/
theorem getCurrentMode_intervals (h : Int) (h0 : 0 ≤ h) (h24 : h < 24) :
    (0 ≤ h ∧ h < 6 → getCurrentMode h = "late_night") ∧
    (6 ≤ h ∧ h < 9 → getCurrentMode h = "morning") ∧
    (9 ≤ h ∧ h < 12 → getCurrentMode h = "day") ∧
    (12 ≤ h ∧ h < 14 → getCurrentMode h = "flash_sale") ∧
    (14 ≤ h ∧ h < 17 → getCurrentMode h = "afternoon") ∧
    (17 ≤ h ∧ h < 20 → getCurrentMode h = "evening") ∧
    (20 ≤ h ∧ h < 24 → getCurrentMode h = "night") := by
  interval_cases h <;> simp <;> rfl

/-- Claim C1 at the hours 5, 6, 13 and 23. -/
theorem getCurrentMode_intervals_witness :
    getCurrentMode 5 = "late_night" ∧ getCurrentMode 6 = "morning" ∧
    getCurrentMode 13 = "flash_sale" ∧ getCurrentMode 23 = "night" :=
  ⟨(getCurrentMode_intervals 5 (by decide) (by decide)).1 (by decide),
   (getCurrentMode_intervals 6 (by decide) (by decide)).2.1 (by decide),
   (getCurrentMode_intervals 13 (by decide) (by decide)).2.2.2.1 (by decide),
   (getCurrentMode_intervals 23 (by decide) (by decide)).2.2.2.2.2.2 (by decide)⟩

/-- Claim C2. For every hour h with 0 <= h < 24 exactly one of the seven case guards of
`getCurrentMode` holds, so a case is found, it decides the result, and the default branch is not
reached. -/
theorem modeCases_exactly_one (h : Int) (h0 : 0 ≤ h) (h24 : h < 24) :
    (modeCases.filter (fun c => c.1 h)).length = 1 ∧
    ∃ c, modeCases.find? (fun c => c.1 h) = some c ∧ getCurrentMode h = c.2 := by
  interval_cases h <;> exact ⟨rfl, _, rfl, rfl⟩

/-- Claim C2 at hour 17. -/
theorem modeCases_exactly_one_witness :
    (modeCases.filter (fun c => c.1 17)).length = 1 ∧
    ∃ c, modeCases.find? (fun c => c.1 17) = some c ∧ getCurrentMode 17 = c.2 :=
  modeCases_exactly_one 17 (by decide) (by decide)

/-- Claim C3. For every screen and mode the routes of `bottom_nav`, in order, are [/, /profile]
for late_night, [/, /cart] for flash_sale, [/, /favorites, /profile] for evening, [/, /search,
/favorites, /profile] for night and [/, /search, /cart, /profile] for every other mode. -/
theorem bottom_nav_routes (screen mode : String) :
    (bottomNav screen mode).map (List.map (fun it => it.getStr "route")) =
      some (List.map some
        (if mode = "late_night" then ["/", "/profile"]
         else if mode = "flash_sale" then ["/", "/cart"]
         else if mode = "evening" then ["/", "/favorites", "/profile"]
         else if mode = "night" then ["/", "/search", "/favorites", "/profile"]
         else ["/", "/search", "/cart", "/profile"])) := by
  rw [bottomNav_eq]
  unfold markedItems
  split_ifs <;> simp [navItem, Value.getStr, Value.get, mapGet, Value.asString]

/-- Claim C4. For every screen and mode each `bottom_nav` item is one of the five entries home,
search, cart, favorites, profile and carries the label of the override table when one applies to
(mode, entry), its base label otherwise. -/
theorem bottom_nav_labels (screen mode : String) :
    ∃ items, bottomNav screen mode = some items ∧
      ∀ it ∈ items, ∃ name ∈ ["home", "search", "cart", "favorites", "profile"],
        it.getStr "id" = some ("nav-" ++ name) ∧
        it.getStr "label" = some (specLabel mode name) := by
  refine ⟨_, bottomNav_eq screen mode, ?_⟩
  unfold markedItems
  split_ifs with h1 h2 h3 h4
  · subst h1
    simp [navItem, Value.getStr, Value.get, mapGet, Value.asString]
    decide
  · subst h2
    simp [navItem, Value.getStr, Value.get, mapGet, Value.asString]
    decide
  · subst h3
    simp [navItem, Value.getStr, Value.get, mapGet, Value.asString]
    decide
  · subst h4
    simp [navItem, Value.getStr, Value.get, mapGet, Value.asString]
    decide
  · simp [navItem, Value.getStr, Value.get, mapGet, Value.asString, specLabel, h1, h2, h3, h4]
    decide

/-- The active test of the home entry, read through `homeAlias`. -/
theorem active_home (screen : String) :
    (screen == "/" || screen == "home") = decide ("/" = homeAlias screen) := by
  unfold homeAlias
  by_cases h : screen = "home"
  · subst h; decide
  · rw [Bool.eq_iff_iff]; simp [h]; exact eq_comm

/-- The active test of an entry other than home, read through `homeAlias`. -/
theorem active_other (screen route : String) (hr : route ≠ "/") (hh : route ≠ "home") :
    (screen == route) = decide (route = homeAlias screen) := by
  unfold homeAlias
  by_cases h : screen = "home"
  · subst h
    have : ¬ ("home" = route) := fun e => hh e.symm
    simp [hr, this]
  · rw [Bool.eq_iff_iff]; simp [h]; exact eq_comm

/-- Claim C5 fails as stated: for screen "" in mode day the home item has the route "/", which
is the normalized "", and yet `is_active` is false. -/
theorem is_active_empty_screen_counterexample :
    ∃ items it, bottomNav "" "day" = some items ∧ it ∈ items ∧
      it.getStr "route" = some (specNormalize "") ∧ it.getBool "is_active" = some false := by
  refine ⟨_, navItem "nav-home" "Home" "home" "/" false, bottomNav_eq "" "day", ?_, ?_, ?_⟩
  · simp [markedItems]
  · simp [navItem, Value.getStr, Value.get, mapGet, Value.asString, specNormalize]
  · simp [navItem, Value.getBool, Value.get, mapGet]

/-- Claim C5, amended. For every screen and mode every `bottom_nav` item has `is_active` true
exactly when its route equals the screen with "home" read as "/"; no other string, "" included,
is rewritten. -/
theorem is_active_iff_route (screen mode : String) :
    ∃ items, bottomNav screen mode = some items ∧
      ∀ it ∈ items, ∃ route, it.getStr "route" = some route ∧
        it.getBool "is_active" = some (decide (route = homeAlias screen)) := by
  refine ⟨_, bottomNav_eq screen mode, ?_⟩
  have e1 := active_home screen
  have e2 := active_other screen "/search" (by decide) (by decide)
  have e3 := active_other screen "/cart" (by decide) (by decide)
  have e4 := active_other screen "/favorites" (by decide) (by decide)
  have e5 := active_other screen "/profile" (by decide) (by decide)
  unfold markedItems
  split_ifs <;>
    simp [navItem, Value.getStr, Value.getBool, Value.get, mapGet, Value.asString, e1, e2, e3, e4, e5]

/-- Claim C6 fails as stated: "/search" is a canonical route, and in mode late_night, which
shows no search item, no item is active. -/
theorem active_count_empty_tab_counterexample :
    ∃ items, bottomNav "/search" "late_night" = some items ∧ activeCount items = 0 ∧
      ¬ (activeCount items = 1) := by
  refine ⟨_, bottomNav_eq "/search" "late_night", ?_, ?_⟩ <;>
    simp [markedItems, activeCount, navItem, Value.getBool, Value.get, mapGet]

/-- No item, no active item. -/
theorem activeCount_nil : activeCount [] = 0 := rfl

/-- Counting the active items of a list that starts with a marked entry. -/
theorem activeCount_cons (id label icon route : String) (b : Bool) (rest : List Value) :
    activeCount (navItem id label icon route b :: rest) =
      (if b = true then 1 else 0) + activeCount rest := by
  cases b <;>
    simp [activeCount, navItem, Value.getBool, Value.get, mapGet, List.filter, Nat.add_comm]

/-- Route of a marked entry. -/
theorem navItem_route (id label icon route : String) (b : Bool) :
    (navItem id label icon route b).getStr "route" = some route := by
  simp [navItem, Value.getStr, Value.get, mapGet, Value.asString]

/-- Claim C6, amended. For every screen and mode at most one `bottom_nav` item is active;
exactly one is active if and only if the screen, with "home" read as "/", is the route of an
item the mode shows; in particular exactly one is active when the screen is "/" or "home". -/
theorem at_most_one_active (screen mode : String) :
    ∃ items, bottomNav screen mode = some items ∧
      activeCount items ≤ 1 ∧
      (activeCount items = 1 ↔ ∃ it ∈ items, it.getStr "route" = some (homeAlias screen)) ∧
      (screen = "/" ∨ screen = "home" → activeCount items = 1) := by
  refine ⟨_, bottomNav_eq screen mode, ?_⟩
  have e1 := active_home screen
  have e2 := active_other screen "/search" (by decide) (by decide)
  have e3 := active_other screen "/cart" (by decide) (by decide)
  have e4 := active_other screen "/favorites" (by decide) (by decide)
  have e5 := active_other screen "/profile" (by decide) (by decide)
  have ha : (screen = "/" ∨ screen = "home") → "/" = homeAlias screen := by
    rintro (h | h) <;> subst h <;> decide
  revert ha
  generalize homeAlias screen = a at *
  intro ha
  unfold markedItems
  split_ifs <;>
    simp only [e1, e2, e3, e4, e5, activeCount_cons, activeCount_nil, List.mem_cons,
      List.mem_singleton, exists_eq_or_imp, exists_eq_left, navItem_route, Option.some.injEq,
      decide_eq_true_eq, List.not_mem_nil, false_and, exists_false, or_false] <;>
    (by_cases h1 : "/" = a
     · subst h1; simp
     have hn : ¬ (screen = "/" ∨ screen = "home") := fun h => h1 (ha h)
     by_cases h2 : "/search" = a
     · subst h2; simp [hn]
     by_cases h3 : "/cart" = a
     · subst h3; simp [hn]
     by_cases h4 : "/favorites" = a
     · subst h4; simp [hn]
     by_cases h5 : "/profile" = a
     · subst h5; simp [hn]
     simp [h1, h2, h3, h4, h5, hn])

/-- The `switch` of `getScreenTitle` agrees with the route to title table, "" when the table has
no entry. -/
theorem getScreenTitle_table (screen : String) :
    getScreenTitle screen = (specTitleTable.lookup screen).getD "" := by
  unfold getScreenTitle
  split_ifs with h1 h2 h3 h4 h5 h6
  · rcases h1 with h | h <;> subst h <;> rfl
  · subst h2; rfl
  · subst h3; rfl
  · subst h4; rfl
  · subst h5; rfl
  · subst h6; rfl
  · rw [not_or] at h1
    have b1 : (screen == "/") = false := beq_eq_false_iff_ne.mpr h1.1
    have b2 : (screen == "home") = false := beq_eq_false_iff_ne.mpr h1.2
    have b3 : (screen == "/search") = false := beq_eq_false_iff_ne.mpr h2
    have b4 : (screen == "/cart") = false := beq_eq_false_iff_ne.mpr h3
    have b5 : (screen == "/favorites") = false := beq_eq_false_iff_ne.mpr h4
    have b6 : (screen == "/profile") = false := beq_eq_false_iff_ne.mpr h5
    have b7 : (screen == "/product") = false := beq_eq_false_iff_ne.mpr h6
    simp only [specTitleTable, List.lookup, b1, b2, b3, b4, b5, b6, b7, Option.getD_none]

/-- Claim C7. For every screen and mode the title of the navigation state is
`getScreenTitle(screen)`, whatever the mode, and `getScreenTitle` is the table: "" for "/" and
"home", Search, Cart, Favorites, Profile, Product Details for their routes, "" for every other
string. -/
theorem navigation_title (screen mode : String) :
    (∃ nav, getNavigationConfig screen mode = some nav ∧
      nav.getStr "title" = some (getScreenTitle screen)) ∧
    getScreenTitle screen = (specTitleTable.lookup screen).getD "" := by
  refine ⟨⟨_, getNavigationConfig_eq screen mode, ?_⟩, getScreenTitle_table screen⟩
  simp [navState, Value.getStr, Value.get, mapGet, Value.asString]

/-- Claim C8 fails as stated: "" normalizes to the root "/", and yet for screen ""
`show_back_button` is true. -/
theorem back_button_empty_screen_counterexample :
    ∃ nav, getNavigationConfig "" "day" = some nav ∧ specNormalize "" = "/" ∧
      nav.getBool "show_back_button" = some true := by
  refine ⟨_, getNavigationConfig_eq "" "day", by decide, ?_⟩
  simp [navState, Value.getBool, Value.get, mapGet]

/-- Claim C8, amended. For every screen and mode `show_back_button` is true exactly when the
screen, with "home" read as "/", is not the root "/"; no other string, "" included, is
rewritten. -/
theorem show_back_button_iff (screen mode : String) :
    ∃ nav, getNavigationConfig screen mode = some nav ∧
      nav.getBool "show_back_button" = some (decide (homeAlias screen ≠ "/")) := by
  refine ⟨_, getNavigationConfig_eq screen mode, ?_⟩
  have : (screen != "/" && screen != "home") = decide (homeAlias screen ≠ "/") := by
    unfold homeAlias
    by_cases h : screen = "home"
    · subst h; decide
    · rw [Bool.eq_iff_iff]; simp [h]
  simp [navState, Value.getBool, Value.get, mapGet, this]

/-! ## Properties of the handler -/

/-- Claim C9, the code at the failing input: a request for "/" at hour 10 is answered with
X-UI-Mode night and metadata.mode night, while `getCurrentMode` yields day for that hour. -/
theorem handleUiConfig_mode_fixed_at_ten :
    ∃ resp, handleUiConfig ⟨10, "2026-01-05T10:00:00Z", "10:00 AM"⟩ ⟨"/", "", ""⟩ = some resp ∧
      resp.headers.lookup "X-UI-Mode" = some "night" ∧
      (resp.body.get "metadata").bind (fun m => m.getStr "mode") = some "night" ∧
      getCurrentMode 10 = "day" := by
  simp [handleUiConfig, dispatchScreen, getHomeScreenConfig, getNightModeConfig,
    getNavigationConfig_eq, getMetadata, Value.get, mapGet, Value.getStr, Value.asString,
    List.lookup]
  rfl

/-- The home composition never fails, whatever the mode. -/
theorem getHomeScreenConfig_isSome (clk : Clock) (mode userId : String) :
    (getHomeScreenConfig clk mode userId).isSome = true := by
  unfold getHomeScreenConfig
  split_ifs <;>
    simp [getLateNightModeConfig, getMorningModeConfig, getFlashSaleConfig,
      getAfternoonModeConfig, getEveningConfig, getNightModeConfig, getDayModeConfig,
      getNavigationConfig_eq]

/-- Claim C10. For every mode and every screen that is none of "/", "home", "/product", "/cart",
"/profile", "/search", "/favorites", the screen dispatch of `handleUiConfig` succeeds and yields
the descriptor it yields for "/" with the same mode and clock; so does the alias "home"; and the
handler answers both as it answers "/". -/
theorem dispatch_unknown_screen (clk : Clock) (mode userId productID screen : String)
    (h : screen ∉ ["/", "home", "/product", "/cart", "/profile", "/search", "/favorites"]) :
    (∃ d, dispatchScreen clk screen mode userId productID = some d ∧
      dispatchScreen clk "/" mode userId productID = some d) ∧
    dispatchScreen clk "home" mode userId productID =
      dispatchScreen clk "/" mode userId productID ∧
    handleUiConfig clk ⟨screen, productID, userId⟩ = handleUiConfig clk ⟨"/", productID, userId⟩ ∧
    handleUiConfig clk ⟨"home", productID, userId⟩ = handleUiConfig clk ⟨"/", productID, userId⟩ := by
  simp only [List.mem_cons, List.mem_singleton, List.not_mem_nil, or_false, not_or] at h
  obtain ⟨h1, h2, h3, h4, h5, h6, h7⟩ := h
  have e : ∀ m, dispatchScreen clk screen m userId productID = getHomeScreenConfig clk m userId := by
    intro m; simp [dispatchScreen, h1, h2, h3, h4, h5, h6, h7]
  have e0 : ∀ m, dispatchScreen clk "/" m userId productID = getHomeScreenConfig clk m userId := by
    intro m; simp [dispatchScreen]
  have eh : ∀ m, dispatchScreen clk "home" m userId productID = getHomeScreenConfig clk m userId := by
    intro m; simp [dispatchScreen]
  refine ⟨?_, ?_, ?_, ?_⟩
  · rw [e, e0]
    obtain ⟨d, hd⟩ := Option.isSome_iff_exists.mp (getHomeScreenConfig_isSome clk mode userId)
    exact ⟨d, hd, hd⟩
  · rw [eh, e0]
  · by_cases hs : screen = ""
    · subst hs; simp [handleUiConfig]
    · simp [handleUiConfig, hs, e, e0]
  · simp [handleUiConfig, eh, e0]

/-- Claim C10 at the screen "/unknown-route" in mode day. -/
theorem dispatch_unknown_screen_witness :
    ∃ d, dispatchScreen ⟨10, "2026-01-05T10:00:00Z", "10:00 AM"⟩ "/unknown-route" "day" "u1" "" =
        some d ∧
      dispatchScreen ⟨10, "2026-01-05T10:00:00Z", "10:00 AM"⟩ "/" "day" "u1" "" = some d :=
  (dispatch_unknown_screen ⟨10, "2026-01-05T10:00:00Z", "10:00 AM"⟩ "day" "u1" "" "/unknown-route"
    (by decide)).1

/-! ## Properties of the composed descriptors -/

/-- Shape of the late_night home composition. -/
theorem getLateNightModeConfig_shape (clk : Clock) :
    ∃ theme comps,
      getLateNightModeConfig clk = some (descriptor "home" "scroll" theme comps
        (navState "/" (markedItems "/" "late_night")) (getMetadata clk "late_night")) ∧
      comps ≠ [] ∧ (nodeForest comps).map idAndType ∈ routineNodes := by
  rw [getLateNightModeConfig, getNavigationConfig_eq]
  refine ⟨_, _, rfl, List.cons_ne_nil _ _, ?_⟩
  exact List.Mem.head _

/-- Shape of the morning home composition. -/
theorem getMorningModeConfig_shape (clk : Clock) :
    ∃ theme comps,
      getMorningModeConfig clk = some (descriptor "home" "scroll" theme comps
        (navState "/" (markedItems "/" "morning")) (getMetadata clk "morning")) ∧
      comps ≠ [] ∧ (nodeForest comps).map idAndType ∈ routineNodes := by
  rw [getMorningModeConfig, getNavigationConfig_eq]
  refine ⟨_, _, rfl, List.cons_ne_nil _ _, ?_⟩
  exact List.Mem.tail _ (List.Mem.head _)

/-- Shape of the flash_sale home composition. -/
theorem getFlashSaleConfig_shape (clk : Clock) :
    ∃ theme comps,
      getFlashSaleConfig clk = some (descriptor "home" "scroll" theme comps
        (navState "/" (markedItems "/" "flash_sale")) (getMetadata clk "flash_sale")) ∧
      comps ≠ [] ∧ (nodeForest comps).map idAndType ∈ routineNodes := by
  rw [getFlashSaleConfig, getNavigationConfig_eq]
  refine ⟨_, _, rfl, List.cons_ne_nil _ _, ?_⟩
  exact List.Mem.tail _ (List.Mem.tail _ (List.Mem.head _))

/-- Shape of the afternoon home composition. -/
theorem getAfternoonModeConfig_shape (clk : Clock) :
    ∃ theme comps,
      getAfternoonModeConfig clk = some (descriptor "home" "scroll" theme comps
        (navState "/" (markedItems "/" "afternoon")) (getMetadata clk "afternoon")) ∧
      comps ≠ [] ∧ (nodeForest comps).map idAndType ∈ routineNodes := by
  rw [getAfternoonModeConfig, getNavigationConfig_eq]
  refine ⟨_, _, rfl, List.cons_ne_nil _ _, ?_⟩
  exact List.Mem.tail _ (List.Mem.tail _ (List.Mem.tail _ (List.Mem.head _)))

/-- Shape of the evening home composition. -/
theorem getEveningConfig_shape (clk : Clock) :
    ∃ theme comps,
      getEveningConfig clk = some (descriptor "home" "scroll" theme comps
        (navState "/" (markedItems "/" "evening")) (getMetadata clk "evening")) ∧
      comps ≠ [] ∧ (nodeForest comps).map idAndType ∈ routineNodes := by
  rw [getEveningConfig, getNavigationConfig_eq]
  refine ⟨_, _, rfl, List.cons_ne_nil _ _, ?_⟩
  exact List.Mem.tail _ (List.Mem.tail _ (List.Mem.tail _ (List.Mem.tail _ (List.Mem.head _))))

/-- Shape of the night home composition. -/
theorem getNightModeConfig_shape (clk : Clock) :
    ∃ theme comps,
      getNightModeConfig clk = some (descriptor "home" "scroll" theme comps
        (navState "/" (markedItems "/" "night")) (getMetadata clk "night")) ∧
      comps ≠ [] ∧ (nodeForest comps).map idAndType ∈ routineNodes := by
  rw [getNightModeConfig, getNavigationConfig_eq]
  refine ⟨_, _, rfl, List.cons_ne_nil _ _, ?_⟩
  exact List.Mem.tail _ (List.Mem.tail _ (List.Mem.tail _ (List.Mem.tail _ (List.Mem.tail _ (List.Mem.head _)))))

/-- Shape of the day home composition. -/
theorem getDayModeConfig_shape (clk : Clock) :
    ∃ theme comps,
      getDayModeConfig clk = some (descriptor "home" "scroll" theme comps
        (navState "/" (markedItems "/" "day")) (getMetadata clk "day")) ∧
      comps ≠ [] ∧ (nodeForest comps).map idAndType ∈ routineNodes := by
  rw [getDayModeConfig, getNavigationConfig_eq]
  refine ⟨_, _, rfl, List.cons_ne_nil _ _, ?_⟩
  exact List.Mem.tail _ (List.Mem.tail _ (List.Mem.tail _ (List.Mem.tail _ (List.Mem.tail _ (List.Mem.tail _ (List.Mem.head _))))))

/-- Shape of the product screen: its components are the same for every mode. -/
theorem getProductScreenConfig_shape (clk : Clock) (productID : String) :
    ∃ comps,
      (∀ mode, getProductScreenConfig clk mode productID = some (descriptor "product" "scroll" (getThemeForMode mode) comps
        (navState "/product" (markedItems "/product" mode)) (getMetadata clk mode))) ∧
      comps ≠ [] ∧ (nodeForest comps).map idAndType ∈ routineNodes := by
  refine Exists.intro ?comps (And.intro (fun mode => ?eq) (And.intro ?ne ?mem))
  case eq =>
    rw [getProductScreenConfig, getNavigationConfig_eq]
    exact rfl
  case ne => exact List.cons_ne_nil _ _
  case mem => exact List.Mem.tail _ (List.Mem.tail _ (List.Mem.tail _ (List.Mem.tail _ (List.Mem.tail _ (List.Mem.tail _ (List.Mem.tail _ (List.Mem.head _)))))))

/-- Shape of the cart screen: its components are the same for every mode. -/
theorem getCartScreenConfig_shape (clk : Clock) :
    ∃ comps,
      (∀ mode, getCartScreenConfig clk mode = some (descriptor "cart" "scroll" (getThemeForMode mode) comps
        (navState "/cart" (markedItems "/cart" mode)) (getMetadata clk mode))) ∧
      comps ≠ [] ∧ (nodeForest comps).map idAndType ∈ routineNodes := by
  refine Exists.intro ?comps (And.intro (fun mode => ?eq) (And.intro ?ne ?mem))
  case eq =>
    rw [getCartScreenConfig, getNavigationConfig_eq]
    exact rfl
  case ne => exact List.cons_ne_nil _ _
  case mem => exact List.Mem.tail _ (List.Mem.tail _ (List.Mem.tail _ (List.Mem.tail _ (List.Mem.tail _ (List.Mem.tail _ (List.Mem.tail _ (List.Mem.tail _ (List.Mem.head _))))))))

/-- Shape of the profile screen: its components are the same for every mode. -/
theorem getProfileScreenConfig_shape (clk : Clock) :
    ∃ comps,
      (∀ mode, getProfileScreenConfig clk mode = some (descriptor "profile" "scroll" (getThemeForMode mode) comps
        (navState "/profile" (markedItems "/profile" mode)) (getMetadata clk mode))) ∧
      comps ≠ [] ∧ (nodeForest comps).map idAndType ∈ routineNodes := by
  refine Exists.intro ?comps (And.intro (fun mode => ?eq) (And.intro ?ne ?mem))
  case eq =>
    rw [getProfileScreenConfig, getNavigationConfig_eq]
    exact rfl
  case ne => exact List.cons_ne_nil _ _
  case mem => exact List.Mem.tail _ (List.Mem.tail _ (List.Mem.tail _ (List.Mem.tail _ (List.Mem.tail _ (List.Mem.tail _ (List.Mem.tail _ (List.Mem.tail _ (List.Mem.tail _ (List.Mem.head _)))))))))

/-- Shape of the search screen: its components are the same for every mode. -/
theorem getSearchScreenConfig_shape (clk : Clock) :
    ∃ comps,
      (∀ mode, getSearchScreenConfig clk mode = some (descriptor "search" "scroll" (getThemeForMode mode) comps
        (navState "/search" (markedItems "/search" mode)) (getMetadata clk mode))) ∧
      comps ≠ [] ∧ (nodeForest comps).map idAndType ∈ routineNodes := by
  refine Exists.intro ?comps (And.intro (fun mode => ?eq) (And.intro ?ne ?mem))
  case eq =>
    rw [getSearchScreenConfig, getNavigationConfig_eq]
    exact rfl
  case ne => exact List.cons_ne_nil _ _
  case mem => exact List.Mem.tail _ (List.Mem.tail _ (List.Mem.tail _ (List.Mem.tail _ (List.Mem.tail _ (List.Mem.tail _ (List.Mem.tail _ (List.Mem.tail _ (List.Mem.tail _ (List.Mem.tail _ (List.Mem.head _))))))))))

/-- Shape of the favorites screen: its components are the same for every mode. -/
theorem getFavoritesScreenConfig_shape (clk : Clock) :
    ∃ comps,
      (∀ mode, getFavoritesScreenConfig clk mode = some (descriptor "favorites" "grid" (getThemeForMode mode) comps
        (navState "/favorites" (markedItems "/favorites" mode)) (getMetadata clk mode))) ∧
      comps ≠ [] ∧ (nodeForest comps).map idAndType ∈ routineNodes := by
  refine Exists.intro ?comps (And.intro (fun mode => ?eq) (And.intro ?ne ?mem))
  case eq =>
    rw [getFavoritesScreenConfig, getNavigationConfig_eq]
    exact rfl
  case ne => exact List.cons_ne_nil _ _
  case mem => exact List.Mem.tail _ (List.Mem.tail _ (List.Mem.tail _ (List.Mem.tail _ (List.Mem.tail _ (List.Mem.tail _ (List.Mem.tail _ (List.Mem.tail _ (List.Mem.tail _ (List.Mem.tail _ (List.Mem.tail _ (List.Mem.head _)))))))))))

/-- Every home descriptor has the screen id "home", the layout "scroll", components that are
not empty and whose nodes are listed in `routineNodes`. -/
theorem getHomeScreenConfig_descriptor (clk : Clock) (mode userId : String) :
    ∃ theme comps nav md,
      getHomeScreenConfig clk mode userId =
        some (descriptor "home" "scroll" theme comps nav md) ∧
      comps ≠ [] ∧ (nodeForest comps).map idAndType ∈ routineNodes := by
  unfold getHomeScreenConfig
  split_ifs
  · obtain ⟨t, c, e, hne, hm⟩ := getLateNightModeConfig_shape clk
    exact ⟨t, c, _, _, e, hne, hm⟩
  · obtain ⟨t, c, e, hne, hm⟩ := getMorningModeConfig_shape clk
    exact ⟨t, c, _, _, e, hne, hm⟩
  · obtain ⟨t, c, e, hne, hm⟩ := getFlashSaleConfig_shape clk
    exact ⟨t, c, _, _, e, hne, hm⟩
  · obtain ⟨t, c, e, hne, hm⟩ := getAfternoonModeConfig_shape clk
    exact ⟨t, c, _, _, e, hne, hm⟩
  · obtain ⟨t, c, e, hne, hm⟩ := getEveningConfig_shape clk
    exact ⟨t, c, _, _, e, hne, hm⟩
  · obtain ⟨t, c, e, hne, hm⟩ := getNightModeConfig_shape clk
    exact ⟨t, c, _, _, e, hne, hm⟩
  · obtain ⟨t, c, e, hne, hm⟩ := getDayModeConfig_shape clk
    exact ⟨t, c, _, _, e, hne, hm⟩

/-- Every composed descriptor is one of the twelve shapes: six fields, a known screen id and
layout, components that are not empty and whose nodes are listed in `routineNodes`. -/
theorem dispatchScreen_descriptor (clk : Clock) (screen mode userId productID : String) :
    ∃ sid lt theme comps nav md,
      dispatchScreen clk screen mode userId productID =
        some (descriptor sid lt theme comps nav md) ∧
      sid ≠ "" ∧ (lt = "scroll" ∨ lt = "grid") ∧ comps ≠ [] ∧
      (nodeForest comps).map idAndType ∈ routineNodes := by
  have home : ∃ sid lt theme comps nav md,
      getHomeScreenConfig clk mode userId = some (descriptor sid lt theme comps nav md) ∧
      sid ≠ "" ∧ (lt = "scroll" ∨ lt = "grid") ∧ comps ≠ [] ∧
      (nodeForest comps).map idAndType ∈ routineNodes := by
    obtain ⟨t, c, n, m, e, hne, hm⟩ := getHomeScreenConfig_descriptor clk mode userId
    exact ⟨_, _, t, c, n, m, e, by decide, Or.inl rfl, hne, hm⟩
  unfold dispatchScreen
  split_ifs
  · exact home
  · obtain ⟨c, e, hne, hm⟩ := getProductScreenConfig_shape clk productID
    exact ⟨_, _, _, c, _, _, e mode, by decide, Or.inl rfl, hne, hm⟩
  · obtain ⟨c, e, hne, hm⟩ := getCartScreenConfig_shape clk
    exact ⟨_, _, _, c, _, _, e mode, by decide, Or.inl rfl, hne, hm⟩
  · obtain ⟨c, e, hne, hm⟩ := getProfileScreenConfig_shape clk
    exact ⟨_, _, _, c, _, _, e mode, by decide, Or.inl rfl, hne, hm⟩
  · obtain ⟨c, e, hne, hm⟩ := getSearchScreenConfig_shape clk
    exact ⟨_, _, _, c, _, _, e mode, by decide, Or.inl rfl, hne, hm⟩
  · obtain ⟨c, e, hne, hm⟩ := getFavoritesScreenConfig_shape clk
    exact ⟨_, _, _, c, _, _, e mode, by decide, Or.inr rfl, hne, hm⟩
  · exact home

/-- Reading a field of a descriptor built by `descriptor`. -/
theorem descriptor_get (sid lt : String) (theme : Value) (comps : List Value) (nav md : Value) :
    (descriptor sid lt theme comps nav md).getStr "screen_id" = some sid ∧
    (descriptor sid lt theme comps nav md).getStr "layout_type" = some lt ∧
    (descriptor sid lt theme comps nav md).get "theme" = some theme ∧
    (descriptor sid lt theme comps nav md).get "components" = some (.arr comps) ∧
    (descriptor sid lt theme comps nav md).get "navigation" = some nav ∧
    (descriptor sid lt theme comps nav md).get "metadata" = some md ∧
    componentNodes (descriptor sid lt theme comps nav md) = some (nodeForest comps) := by
  simp [descriptor, Value.getStr, Value.get, mapGet, Value.asString, componentNodes]

/-- The alias "home" yields the navigation state of "/". -/
theorem getNavigationConfig_home (mode : String) :
    getNavigationConfig "home" mode = getNavigationConfig "/" mode := by
  rw [getNavigationConfig_eq, getNavigationConfig_eq]
  simp [navState, markedItems, getScreenTitle]

/-- The home composition carries the navigation state of "/" in the mode it is asked for. -/
theorem getHomeScreenConfig_navigation (clk : Clock) (mode userId : String) :
    (getHomeScreenConfig clk mode userId).bind (fun d => d.get "navigation") =
      getNavigationConfig "/" mode := by
  rw [getNavigationConfig_eq]
  unfold getHomeScreenConfig
  split_ifs with h1 h2 h3 h4 h5 h6
  · obtain ⟨t, c, e, -, -⟩ := getLateNightModeConfig_shape clk
    rw [e, h1]; simp [(descriptor_get _ _ _ _ _ _).2.2.2.2.1]
  · obtain ⟨t, c, e, -, -⟩ := getMorningModeConfig_shape clk
    rw [e, h2]; simp [(descriptor_get _ _ _ _ _ _).2.2.2.2.1]
  · obtain ⟨t, c, e, -, -⟩ := getFlashSaleConfig_shape clk
    rw [e, h3]; simp [(descriptor_get _ _ _ _ _ _).2.2.2.2.1]
  · obtain ⟨t, c, e, -, -⟩ := getAfternoonModeConfig_shape clk
    rw [e, h4]; simp [(descriptor_get _ _ _ _ _ _).2.2.2.2.1]
  · obtain ⟨t, c, e, -, -⟩ := getEveningConfig_shape clk
    rw [e, h5]; simp [(descriptor_get _ _ _ _ _ _).2.2.2.2.1]
  · obtain ⟨t, c, e, -, -⟩ := getNightModeConfig_shape clk
    rw [e, h6]; simp [(descriptor_get _ _ _ _ _ _).2.2.2.2.1]
  · obtain ⟨t, c, e, -, -⟩ := getDayModeConfig_shape clk
    rw [e]
    have : markedItems "/" mode = markedItems "/" "day" := by
      simp [markedItems, h1, h3, h5, h6]
    simp [(descriptor_get _ _ _ _ _ _).2.2.2.2.1, this]

/-- Claim C11 fails as stated: for the screen "/unknown-route" in mode day the descriptor is the
home fallback, whose navigation is not `getNavigationConfig("/unknown-route", "day")` (it shows
no back button and marks home active). -/
theorem navigation_unknown_screen_counterexample :
    (dispatchScreen ⟨10, "2026-01-05T10:00:00Z", "10:00 AM"⟩ "/unknown-route" "day" "" "").bind
        (fun d => d.get "navigation") ≠
      getNavigationConfig "/unknown-route" "day" := by
  intro h
  have e : dispatchScreen ⟨10, "2026-01-05T10:00:00Z", "10:00 AM"⟩ "/unknown-route" "day" "" "" =
      getHomeScreenConfig ⟨10, "2026-01-05T10:00:00Z", "10:00 AM"⟩ "day" "" := by
    simp [dispatchScreen]
  rw [e, getHomeScreenConfig_navigation, getNavigationConfig_eq, getNavigationConfig_eq] at h
  have h2 := congrArg (fun o => o.bind (fun n => n.getBool "show_back_button")) h
  simp [navState, Value.getBool, Value.get, mapGet] at h2

/-- Claim C11, amended. For every mode, the navigation of the descriptor composed for a screen
that has a case of its own ("/", "home", "/product", "/cart", "/profile", "/search",
"/favorites") is `getNavigationConfig(screen, mode)`; for every other screen the descriptor is
the home fallback and its navigation is `getNavigationConfig("/", mode)`. -/
theorem navigation_of_screen (clk : Clock) (screen mode userId productID : String) :
    (dispatchScreen clk screen mode userId productID).bind (fun d => d.get "navigation") =
      getNavigationConfig (if screen ∈ knownScreens then screen else "/") mode := by
  generalize ht : (if screen ∈ knownScreens then screen else "/") = target
  unfold dispatchScreen
  split_ifs with h1 h2 h3 h4 h5 h6
  · rw [getHomeScreenConfig_navigation]
    rcases h1 with h | h <;> subst h <;> subst ht
    · rfl
    · exact (getNavigationConfig_home mode).symm
  · obtain ⟨c, e, -, -⟩ := getProductScreenConfig_shape clk productID
    subst h2; subst ht
    rw [e, getNavigationConfig_eq]; simp [(descriptor_get _ _ _ _ _ _).2.2.2.2.1, knownScreens]
  · obtain ⟨c, e, -, -⟩ := getCartScreenConfig_shape clk
    subst h3; subst ht
    rw [e, getNavigationConfig_eq]; simp [(descriptor_get _ _ _ _ _ _).2.2.2.2.1, knownScreens]
  · obtain ⟨c, e, -, -⟩ := getProfileScreenConfig_shape clk
    subst h4; subst ht
    rw [e, getNavigationConfig_eq]; simp [(descriptor_get _ _ _ _ _ _).2.2.2.2.1, knownScreens]
  · obtain ⟨c, e, -, -⟩ := getSearchScreenConfig_shape clk
    subst h5; subst ht
    rw [e, getNavigationConfig_eq]; simp [(descriptor_get _ _ _ _ _ _).2.2.2.2.1, knownScreens]
  · obtain ⟨c, e, -, -⟩ := getFavoritesScreenConfig_shape clk
    subst h6; subst ht
    rw [e, getNavigationConfig_eq]; simp [(descriptor_get _ _ _ _ _ _).2.2.2.2.1, knownScreens]
  · rw [getHomeScreenConfig_navigation]
    rw [not_or] at h1
    have hu : screen ∉ knownScreens := by
      simp [knownScreens, h1.1, h1.2, h2, h3, h4, h5, h6]
    rw [if_neg hu] at ht
    rw [ht]

/-- Claim C12. For every screen, mode and product id the composed descriptor has the six fields
screen_id, layout_type, theme, components, navigation and metadata, its screen_id is not empty,
its layout_type is "scroll" or "grid", and its components are a sequence that is not empty. -/
theorem descriptor_fields (clk : Clock) (screen mode userId productID : String) :
    ∃ d, dispatchScreen clk screen mode userId productID = some d ∧
      (∃ sid, d.getStr "screen_id" = some sid ∧ sid ≠ "") ∧
      (d.getStr "layout_type" = some "scroll" ∨ d.getStr "layout_type" = some "grid") ∧
      (∃ theme, d.get "theme" = some theme) ∧
      (∃ comps, d.get "components" = some (.arr comps) ∧ comps ≠ []) ∧
      (∃ nav, d.get "navigation" = some nav) ∧
      (∃ md, d.get "metadata" = some md) := by
  obtain ⟨sid, lt, theme, comps, nav, md, e, hsid, hlt, hne, -⟩ :=
    dispatchScreen_descriptor clk screen mode userId productID
  obtain ⟨g1, g2, g3, g4, g5, g6, -⟩ := descriptor_get sid lt theme comps nav md
  refine ⟨_, e, ⟨sid, g1, hsid⟩, ?_, ⟨_, g3⟩, ⟨_, g4, hne⟩, ⟨_, g5⟩, ⟨_, g6⟩⟩
  rcases hlt with h | h <;> subst h
  · exact Or.inl g2
  · exact Or.inr g2

/-- Claim C13, the code at the failing input: a request for "/cart" is answered with the theme
`getThemeForMode("night")`, which has neither `font_sizes` nor `spacing`, so no role or scale has
a positive size; the home descriptor of the same request clock has every role and every scale
with a positive size. -/
theorem secondary_theme_lacks_sizes :
    (∃ resp theme, handleUiConfig ⟨21, "2026-01-05T21:00:00Z", "9:00 PM"⟩ ⟨"/cart", "", ""⟩ = some resp ∧
      resp.body.get "theme" = some theme ∧ theme = getThemeForMode "night" ∧
      theme.get "font_sizes" = none ∧ theme.get "spacing" = none ∧
      hasPositiveSize theme "font_sizes" "headline" = false ∧
      hasPositiveSize theme "spacing" "md" = false) ∧
    (∃ resp theme, handleUiConfig ⟨21, "2026-01-05T21:00:00Z", "9:00 PM"⟩ ⟨"/", "", ""⟩ = some resp ∧
      resp.body.get "theme" = some theme ∧
      (∀ role ∈ ["headline", "title", "body", "caption"],
        hasPositiveSize theme "font_sizes" role = true) ∧
      (∀ scale ∈ ["xs", "sm", "md", "lg", "xl"], hasPositiveSize theme "spacing" scale = true)) := by
  constructor
  · exact ⟨_, _, rfl, rfl, rfl, rfl, rfl, by decide, by decide⟩
  · exact ⟨_, _, rfl, rfl, by decide, by decide⟩

/-- Claim C14, the code at the failing input: the home descriptor of late_night has the palette
dark, #0A0A0A, #000000, #555555, while `getThemeForMode("late_night")` returns the night palette
dark, #1A1A1A, #0A0A0A, #FFD700; for each of the six other modes the two palettes are equal. -/
theorem late_night_palette_differs :
    (∃ d theme, getHomeScreenConfig ⟨3, "2026-01-05T03:00:00Z", "3:00 AM"⟩ "late_night" "" = some d ∧
      d.get "theme" = some theme ∧
      palette theme = (some true, some "#0A0A0A", some "#000000", some "#555555")) ∧
    palette (getThemeForMode "late_night") =
      (some true, some "#1A1A1A", some "#0A0A0A", some "#FFD700") ∧
    ∀ m ∈ ["morning", "day", "flash_sale", "afternoon", "evening", "night"],
      ∃ d theme, getHomeScreenConfig ⟨3, "2026-01-05T03:00:00Z", "3:00 AM"⟩ m "" = some d ∧
        d.get "theme" = some theme ∧ palette theme = palette (getThemeForMode m) := by
  refine ⟨?_, by decide, ?_⟩
  · rw [show getHomeScreenConfig ⟨3, "2026-01-05T03:00:00Z", "3:00 AM"⟩ "late_night" "" =
      getLateNightModeConfig ⟨3, "2026-01-05T03:00:00Z", "3:00 AM"⟩ from rfl,
      getLateNightModeConfig, getNavigationConfig_eq]
    exact ⟨_, _, rfl, rfl, by decide⟩
  · intro m hm
    simp only [List.mem_cons, List.mem_singleton, List.not_mem_nil, or_false] at hm
    rcases hm with h | h | h | h | h | h <;> subst h
    · rw [show getHomeScreenConfig ⟨3, "2026-01-05T03:00:00Z", "3:00 AM"⟩ "morning" "" =
        getMorningModeConfig ⟨3, "2026-01-05T03:00:00Z", "3:00 AM"⟩ from rfl,
        getMorningModeConfig, getNavigationConfig_eq]
      exact ⟨_, _, rfl, rfl, by decide⟩
    · rw [show getHomeScreenConfig ⟨3, "2026-01-05T03:00:00Z", "3:00 AM"⟩ "day" "" =
        getDayModeConfig ⟨3, "2026-01-05T03:00:00Z", "3:00 AM"⟩ from rfl,
        getDayModeConfig, getNavigationConfig_eq]
      exact ⟨_, _, rfl, rfl, by decide⟩
    · rw [show getHomeScreenConfig ⟨3, "2026-01-05T03:00:00Z", "3:00 AM"⟩ "flash_sale" "" =
        getFlashSaleConfig ⟨3, "2026-01-05T03:00:00Z", "3:00 AM"⟩ from rfl,
        getFlashSaleConfig, getNavigationConfig_eq]
      exact ⟨_, _, rfl, rfl, by decide⟩
    · rw [show getHomeScreenConfig ⟨3, "2026-01-05T03:00:00Z", "3:00 AM"⟩ "afternoon" "" =
        getAfternoonModeConfig ⟨3, "2026-01-05T03:00:00Z", "3:00 AM"⟩ from rfl,
        getAfternoonModeConfig, getNavigationConfig_eq]
      exact ⟨_, _, rfl, rfl, by decide⟩
    · rw [show getHomeScreenConfig ⟨3, "2026-01-05T03:00:00Z", "3:00 AM"⟩ "evening" "" =
        getEveningConfig ⟨3, "2026-01-05T03:00:00Z", "3:00 AM"⟩ from rfl,
        getEveningConfig, getNavigationConfig_eq]
      exact ⟨_, _, rfl, rfl, by decide⟩
    · rw [show getHomeScreenConfig ⟨3, "2026-01-05T03:00:00Z", "3:00 AM"⟩ "night" "" =
        getNightModeConfig ⟨3, "2026-01-05T03:00:00Z", "3:00 AM"⟩ from rfl,
        getNightModeConfig, getNavigationConfig_eq]
      exact ⟨_, _, rfl, rfl, by decide⟩

/-- Claim C15. For every mode string that is not one of the seven mode names
`getThemeForMode(mode)` is `getThemeForMode("day")`, the light palette #2C3E50, #FFFFFF,
#3498DB. -/
theorem getThemeForMode_unknown (mode : String) (h : mode ∉ modeNames) :
    getThemeForMode mode = getThemeForMode "day" ∧
    palette (getThemeForMode mode) =
      (some false, some "#2C3E50", some "#FFFFFF", some "#3498DB") := by
  simp only [modeNames, List.mem_cons, List.mem_singleton, List.not_mem_nil, or_false,
    not_or] at h
  obtain ⟨h1, h2, h3, h4, h5, h6, h7⟩ := h
  have e : getThemeForMode mode = getThemeForMode "day" := by
    simp [getThemeForMode, h1, h2, h4, h5, h6, h7]
  rw [e]
  exact ⟨rfl, by decide⟩

/-- Claim C15 at the mode string "holiday". -/
theorem getThemeForMode_unknown_witness :
    getThemeForMode "holiday" = getThemeForMode "day" ∧
    palette (getThemeForMode "holiday") =
      (some false, some "#2C3E50", some "#FFFFFF", some "#3498DB") :=
  getThemeForMode_unknown "holiday" (by decide)

/-- In every routine the nodes have an id, the ids are pairwise distinct, and every type is in
the vocabulary of the specification or is one of `testimonial_card`, `image`. -/
theorem routineNodes_facts :
    ∀ l ∈ routineNodes,
      (l.map Prod.fst).Nodup ∧ (∀ p ∈ l, p.1.isSome = true) ∧
      ∀ p ∈ l, ∃ t ∈ specComponentTypes ++ ["testimonial_card", "image"], p.2 = some t := by
  decide

/-- Claim C16. For every screen, mode and product id every component node of the composed
descriptor, nested children included, has an id, and the ids are pairwise distinct. -/
theorem component_ids_distinct (clk : Clock) (screen mode userId productID : String) :
    ∃ d nodes, dispatchScreen clk screen mode userId productID = some d ∧
      componentNodes d = some nodes ∧
      (∀ n ∈ nodes, ∃ id, n.getStr "id" = some id) ∧
      (nodes.map (fun n => n.getStr "id")).Nodup := by
  obtain ⟨sid, lt, theme, comps, nav, md, e, -, -, -, hm⟩ :=
    dispatchScreen_descriptor clk screen mode userId productID
  obtain ⟨hnd, hid, -⟩ := routineNodes_facts _ hm
  refine ⟨_, _, e, (descriptor_get _ _ _ _ _ _).2.2.2.2.2.2, ?_, ?_⟩
  · intro n hn
    have := hid (idAndType n) (List.mem_map_of_mem idAndType hn)
    exact Option.isSome_iff_exists.mp this
  · rw [List.map_map] at hnd
    exact hnd

/-- Claim C17 fails as stated: the home descriptor of mode morning has a node of type
`testimonial_card`, which is not in the list of the specification. -/
theorem component_type_counterexample :
    ∃ d nodes, dispatchScreen ⟨7, "2026-01-05T07:00:00Z", "7:00 AM"⟩ "/" "morning" "" "" = some d ∧
      componentNodes d = some nodes ∧
      some "testimonial_card" ∈ nodes.map (fun n => n.getStr "type") ∧
      "testimonial_card" ∉ specComponentTypes := by
  rw [show dispatchScreen ⟨7, "2026-01-05T07:00:00Z", "7:00 AM"⟩ "/" "morning" "" "" =
    getMorningModeConfig ⟨7, "2026-01-05T07:00:00Z", "7:00 AM"⟩ from rfl,
    getMorningModeConfig, getNavigationConfig_eq]
  refine ⟨_, _, rfl, rfl, ?_, by decide⟩
  decide

/-- Claim C17, amended. For every screen and mode the type of every component node of the
composed descriptor, nested children included, is one of the seventeen types the specification
lists or one of `testimonial_card` and `image`. -/
theorem component_types_known (clk : Clock) (screen mode userId productID : String) :
    ∃ d nodes, dispatchScreen clk screen mode userId productID = some d ∧
      componentNodes d = some nodes ∧
      ∀ n ∈ nodes, ∃ t ∈ specComponentTypes ++ ["testimonial_card", "image"],
        n.getStr "type" = some t := by
  obtain ⟨sid, lt, theme, comps, nav, md, e, -, -, -, hm⟩ :=
    dispatchScreen_descriptor clk screen mode userId productID
  obtain ⟨-, -, hty⟩ := routineNodes_facts _ hm
  refine ⟨_, _, e, (descriptor_get _ _ _ _ _ _).2.2.2.2.2.2, ?_⟩
  intro n hn
  exact hty (idAndType n) (List.mem_map_of_mem idAndType hn)

/-- Two descriptors that differ in theme, navigation and metadata only agree on every other
key. -/
theorem descriptor_get_other (sid lt : String) (comps : List Value)
    (t1 t2 n1 n2 m1 m2 : Value) (k : String) (hk : k ∉ ["theme", "navigation", "metadata"]) :
    (descriptor sid lt t1 comps n1 m1).get k = (descriptor sid lt t2 comps n2 m2).get k := by
  simp only [List.mem_cons, List.mem_singleton, List.not_mem_nil, or_false, not_or] at hk
  obtain ⟨h1, h2, h3⟩ := hk
  have e1 : ¬ "theme" = k := fun e => h1 e.symm
  have e2 : ¬ "navigation" = k := fun e => h2 e.symm
  have e3 : ¬ "metadata" = k := fun e => h3 e.symm
  simp [descriptor, Value.get, mapGet, e1, e2, e3]

/-- Claim C18. For each secondary screen, any product id and any two modes the two composed
descriptors have the same screen_id, the same layout_type and the same components, and agree on
every key other than theme, navigation and metadata. -/
theorem secondary_mode_agnostic (clk : Clock) (screen userId productID m1 m2 : String)
    (h : screen ∈ ["/product", "/cart", "/profile", "/search", "/favorites"]) :
    ∃ d1 d2 sid lt comps,
      dispatchScreen clk screen m1 userId productID = some d1 ∧
      dispatchScreen clk screen m2 userId productID = some d2 ∧
      d1.getStr "screen_id" = some sid ∧ d2.getStr "screen_id" = some sid ∧
      d1.getStr "layout_type" = some lt ∧ d2.getStr "layout_type" = some lt ∧
      d1.get "components" = some (.arr comps) ∧ d2.get "components" = some (.arr comps) ∧
      ∀ k, k ∉ ["theme", "navigation", "metadata"] → d1.get k = d2.get k := by
  have fin : ∀ (sid lt : String) (comps : List Value) (t1 t2 n1 n2 x1 x2 : Value),
      ∃ sid' lt' comps',
        (descriptor sid lt t1 comps n1 x1).getStr "screen_id" = some sid' ∧
        (descriptor sid lt t2 comps n2 x2).getStr "screen_id" = some sid' ∧
        (descriptor sid lt t1 comps n1 x1).getStr "layout_type" = some lt' ∧
        (descriptor sid lt t2 comps n2 x2).getStr "layout_type" = some lt' ∧
        (descriptor sid lt t1 comps n1 x1).get "components" = some (.arr comps') ∧
        (descriptor sid lt t2 comps n2 x2).get "components" = some (.arr comps') ∧
        ∀ k, k ∉ ["theme", "navigation", "metadata"] →
          (descriptor sid lt t1 comps n1 x1).get k = (descriptor sid lt t2 comps n2 x2).get k := by
    intro sid lt comps t1 t2 n1 n2 x1 x2
    exact ⟨sid, lt, comps, (descriptor_get _ _ _ _ _ _).1, (descriptor_get _ _ _ _ _ _).1,
      (descriptor_get _ _ _ _ _ _).2.1, (descriptor_get _ _ _ _ _ _).2.1,
      (descriptor_get _ _ _ _ _ _).2.2.2.1, (descriptor_get _ _ _ _ _ _).2.2.2.1,
      fun k hk => descriptor_get_other sid lt comps t1 t2 n1 n2 x1 x2 k hk⟩
  simp only [List.mem_cons, List.mem_singleton, List.not_mem_nil, or_false] at h
  rcases h with h | h | h | h | h <;> subst h
  · obtain ⟨c, e, -, -⟩ := getProductScreenConfig_shape clk productID
    have d : ∀ m, dispatchScreen clk "/product" m userId productID =
        getProductScreenConfig clk m productID := fun m => by simp [dispatchScreen]
    obtain ⟨sid, lt, comps, r⟩ := fin _ _ c _ _ _ _ _ _
    exact ⟨_, _, sid, lt, comps, (d m1).trans (e m1), (d m2).trans (e m2), r⟩
  · obtain ⟨c, e, -, -⟩ := getCartScreenConfig_shape clk
    have d : ∀ m, dispatchScreen clk "/cart" m userId productID =
        getCartScreenConfig clk m := fun m => by simp [dispatchScreen]
    obtain ⟨sid, lt, comps, r⟩ := fin _ _ c _ _ _ _ _ _
    exact ⟨_, _, sid, lt, comps, (d m1).trans (e m1), (d m2).trans (e m2), r⟩
  · obtain ⟨c, e, -, -⟩ := getProfileScreenConfig_shape clk
    have d : ∀ m, dispatchScreen clk "/profile" m userId productID =
        getProfileScreenConfig clk m := fun m => by simp [dispatchScreen]
    obtain ⟨sid, lt, comps, r⟩ := fin _ _ c _ _ _ _ _ _
    exact ⟨_, _, sid, lt, comps, (d m1).trans (e m1), (d m2).trans (e m2), r⟩
  · obtain ⟨c, e, -, -⟩ := getSearchScreenConfig_shape clk
    have d : ∀ m, dispatchScreen clk "/search" m userId productID =
        getSearchScreenConfig clk m := fun m => by simp [dispatchScreen]
    obtain ⟨sid, lt, comps, r⟩ := fin _ _ c _ _ _ _ _ _
    exact ⟨_, _, sid, lt, comps, (d m1).trans (e m1), (d m2).trans (e m2), r⟩
  · obtain ⟨c, e, -, -⟩ := getFavoritesScreenConfig_shape clk
    have d : ∀ m, dispatchScreen clk "/favorites" m userId productID =
        getFavoritesScreenConfig clk m := fun m => by simp [dispatchScreen]
    obtain ⟨sid, lt, comps, r⟩ := fin _ _ c _ _ _ _ _ _
    exact ⟨_, _, sid, lt, comps, (d m1).trans (e m1), (d m2).trans (e m2), r⟩

/-- Claim C18 at the product screen of prod_3 in the modes day and night. -/
theorem secondary_mode_agnostic_witness :
    ∃ d1 d2 sid lt comps,
      dispatchScreen ⟨10, "2026-01-05T10:00:00Z", "10:00 AM"⟩ "/product" "day" "u1" "prod_3" =
        some d1 ∧
      dispatchScreen ⟨10, "2026-01-05T10:00:00Z", "10:00 AM"⟩ "/product" "night" "u1" "prod_3" =
        some d2 ∧
      d1.getStr "screen_id" = some sid ∧ d2.getStr "screen_id" = some sid ∧
      d1.getStr "layout_type" = some lt ∧ d2.getStr "layout_type" = some lt ∧
      d1.get "components" = some (.arr comps) ∧ d2.get "components" = some (.arr comps) ∧
      ∀ k, k ∉ ["theme", "navigation", "metadata"] → d1.get k = d2.get k :=
  secondary_mode_agnostic ⟨10, "2026-01-05T10:00:00Z", "10:00 AM"⟩ "/product" "u1" "prod_3"
    "day" "night" (by decide)

/-- Claim C19. `getHomeScreenConfig` hands each of the seven modes to its own routine, and for
every mode string that is not one of the seven names it returns what it returns for "day". -/
theorem getHomeScreenConfig_dispatch (clk : Clock) (mode userId : String)
    (h : mode ∉ modeNames) :
    getHomeScreenConfig clk mode userId = getHomeScreenConfig clk "day" userId ∧
    getHomeScreenConfig clk "late_night" userId = getLateNightModeConfig clk ∧
    getHomeScreenConfig clk "morning" userId = getMorningModeConfig clk ∧
    getHomeScreenConfig clk "day" userId = getDayModeConfig clk ∧
    getHomeScreenConfig clk "flash_sale" userId = getFlashSaleConfig clk ∧
    getHomeScreenConfig clk "afternoon" userId = getAfternoonModeConfig clk ∧
    getHomeScreenConfig clk "evening" userId = getEveningConfig clk ∧
    getHomeScreenConfig clk "night" userId = getNightModeConfig clk := by
  simp only [modeNames, List.mem_cons, List.mem_singleton, List.not_mem_nil, or_false,
    not_or] at h
  obtain ⟨h1, h2, h3, h4, h5, h6, h7⟩ := h
  refine ⟨?_, rfl, rfl, rfl, rfl, rfl, rfl, rfl⟩
  rw [show getHomeScreenConfig clk "day" userId = getDayModeConfig clk from rfl]
  simp [getHomeScreenConfig, h1, h2, h4, h5, h6, h7]

/-- Claim C19 at the mode string "holiday". -/
theorem getHomeScreenConfig_dispatch_witness :
    getHomeScreenConfig ⟨10, "2026-01-05T10:00:00Z", "10:00 AM"⟩ "holiday" "u1" =
      getHomeScreenConfig ⟨10, "2026-01-05T10:00:00Z", "10:00 AM"⟩ "day" "u1" :=
  (getHomeScreenConfig_dispatch ⟨10, "2026-01-05T10:00:00Z", "10:00 AM"⟩ "holiday" "u1"
    (by decide)).1

/-- Claim C20. The descriptor composed for "/" in mode flash_sale has a bottom_nav of exactly
two items, labelled "Deals" and "Cart" in that order, the first active and the second inactive. -/
theorem flash_sale_home_navigation (clk : Clock) (userId productID : String) :
    ∃ d nav deals cart, dispatchScreen clk "/" "flash_sale" userId productID = some d ∧
      d.get "navigation" = some nav ∧ nav.get "bottom_nav" = some (.arr [deals, cart]) ∧
      deals.getStr "label" = some "Deals" ∧ deals.getBool "is_active" = some true ∧
      cart.getStr "label" = some "Cart" ∧ cart.getBool "is_active" = some false := by
  obtain ⟨t, c, e, -, -⟩ := getFlashSaleConfig_shape clk
  rw [show dispatchScreen clk "/" "flash_sale" userId productID = getFlashSaleConfig clk from rfl, e]
  exact ⟨_, _, _, _, rfl, rfl, rfl, rfl, rfl, rfl, rfl⟩

/-! ## Fixed compositions, catalog, schedule and metadata -/

/-- Claim C21. The descriptor composed for "/profile" in mode evening has the navigation title
"Profile" and show_back_button true; its bottom_nav is home, favorites, profile, of which the
profile item, labelled "You", is the only active one. -/
theorem profile_evening_navigation (clk : Clock) (userId productID : String) :
    ∃ d nav home favorites profile,
      dispatchScreen clk "/profile" "evening" userId productID = some d ∧
      d.get "navigation" = some nav ∧
      nav.getStr "title" = some "Profile" ∧ nav.getBool "show_back_button" = some true ∧
      nav.get "bottom_nav" = some (.arr [home, favorites, profile]) ∧
      profile.getStr "id" = some "nav-profile" ∧ profile.getStr "label" = some "You" ∧
      profile.getBool "is_active" = some true ∧
      home.getBool "is_active" = some false ∧ favorites.getBool "is_active" = some false ∧
      activeCount [home, favorites, profile] = 1 := by
  obtain ⟨c, e, -, -⟩ := getProfileScreenConfig_shape clk
  rw [show dispatchScreen clk "/profile" "evening" userId productID =
    getProfileScreenConfig clk "evening" from rfl, e]
  exact ⟨_, _, _, _, _, rfl, rfl, rfl, rfl, rfl, rfl, rfl, rfl, rfl, rfl, rfl⟩

/-- Claim C22. The home descriptor of mode flash_sale has exactly four top-level components, in
order: a countdown_timer, a row whose children are promo_badge nodes, a product_grid with
columns = 2, and the container `urgency` holding one header. -/
theorem flash_sale_components (clk : Clock) (userId : String) :
    ∃ d timer row grid urgency badges inner,
      getHomeScreenConfig clk "flash_sale" userId = some d ∧
      d.get "components" = some (.arr [timer, row, grid, urgency]) ∧
      timer.getStr "type" = some "countdown_timer" ∧
      row.getStr "type" = some "row" ∧ row.get "children" = some (.arr badges) ∧
      badges ≠ [] ∧ (∀ b ∈ badges, b.getStr "type" = some "promo_badge") ∧
      grid.getStr "type" = some "product_grid" ∧
      (grid.get "props").bind (fun p => p.get "columns") = some (.int 2) ∧
      urgency.getStr "type" = some "container" ∧ urgency.getStr "id" = some "urgency" ∧
      urgency.get "children" = some (.arr [inner]) ∧ inner.getStr "type" = some "header" := by
  rw [show getHomeScreenConfig clk "flash_sale" userId = getFlashSaleConfig clk from rfl,
    getFlashSaleConfig, getNavigationConfig_eq]
  refine ⟨_, _, _, _, _, _, _, rfl, rfl, rfl, rfl, rfl, List.cons_ne_nil _ _, ?_, rfl, rfl, rfl,
    rfl, rfl, rfl⟩
  intro b hb
  simp only [List.mem_cons, List.mem_singleton, List.not_mem_nil, or_false] at hb
  rcases hb with h | h <;> subst h <;> rfl

/-- Claim C23, the code at the failing inputs: at the hours 3, 7 and 8 the banner announces
night, night and day while `getCurrentMode` returns late_night, morning and morning; banner and
resolver disagree at every hour from 0 to 8 and agree at the hours 9 to 13 and 18 to 23. -/
theorem banner_schedule_differs :
    (bannerMode 3 = some "night" ∧ getCurrentMode 3 = "late_night") ∧
    (bannerMode 7 = some "night" ∧ getCurrentMode 7 = "morning") ∧
    (bannerMode 8 = some "day" ∧ getCurrentMode 8 = "morning") ∧
    (∀ h ∈ ([0, 1, 2, 3, 4, 5, 6, 7, 8] : List Int), bannerMode h ≠ some (getCurrentMode h)) ∧
    (∀ h ∈ ([9, 10, 11, 12, 13, 18, 19, 20, 21, 22, 23] : List Int),
      bannerMode h = some (getCurrentMode h)) := by
  decide

/-- Claim C24. The user id does not influence the result: `getHomeScreenConfig`, the screen
dispatch and the handler return the same for any two user ids, with the same clock, screen, mode
and product id. -/
theorem userId_irrelevant (clk : Clock) (screen mode productID u1 u2 : String) :
    getHomeScreenConfig clk mode u1 = getHomeScreenConfig clk mode u2 ∧
    dispatchScreen clk screen mode u1 productID = dispatchScreen clk screen mode u2 productID ∧
    handleUiConfig clk ⟨screen, productID, u1⟩ = handleUiConfig clk ⟨screen, productID, u2⟩ :=
  ⟨rfl, rfl, rfl⟩

/-- Claim C25. For every id `getProductByID` returns a product with that ID; the catalog IDs are
pairwise distinct; when a catalog entry has the id that entry is returned; when none has, the
sentinel "Unknown Product", "Product not found", with empty ImageURL and no Discount, is
returned. -/
theorem getProductByID_total (id : String) :
    (getProductByID id).ID = id ∧
    (getAllProducts.map (fun p => p.ID)).Nodup ∧
    (∀ p ∈ getAllProducts, p.ID = id → getProductByID id = p) ∧
    ((∀ p ∈ getAllProducts, p.ID ≠ id) →
      getProductByID id =
        { ID := id, Name := "Unknown Product", Price := ⟨19998, 2⟩, ImageURL := "",
          Description := "Product not found", Discount := none }) := by
  refine ⟨?_, by decide, ?_, ?_⟩
  · unfold getProductByID
    cases hf : getAllProducts.find? (fun p => p.ID == id) with
    | none => rfl
    | some p =>
      have := List.find?_some hf
      simpa using this
  · intro p hp hid
    subst hid
    simp only [getAllProducts, List.mem_cons, List.mem_singleton, List.not_mem_nil,
      or_false] at hp
    rcases hp with h | h | h | h | h | h | h | h <;> subst h <;> decide
  · intro h
    have hn : getAllProducts.find? (fun p => p.ID == id) = none := by
      rw [List.find?_eq_none]
      intro p hp
      simpa using h p hp
    simp [getProductByID, hn]

/-- Claim C25 at the catalog id "prod_3" and at the id "prod_9", which the catalog lacks. -/
theorem getProductByID_total_witness :
    getProductByID "prod_3" =
      { ID := "prod_3", Name := "Designer Sunglasses", Price := ⟨31998, 2⟩,
        ImageURL := "https://images.unsplash.com/photo-1572635196237-14b3f281503f",
        Description := "UV protection with style", Discount := some 15 } ∧
    getProductByID "prod_9" =
      { ID := "prod_9", Name := "Unknown Product", Price := ⟨19998, 2⟩, ImageURL := "",
        Description := "Product not found", Discount := none } :=
  ⟨(getProductByID_total "prod_3").2.2.1 _ (by decide) rfl,
   (getProductByID_total "prod_9").2.2.2 (by decide)⟩

/-- A marked entry differs from its base entry in `label` and `is_active` only. -/
theorem navItem_frame (id label label2 icon route : String) (b : Bool)
    (hb : Value.obj [("id", .str id), ("label", .str label), ("icon", .str icon),
      ("route", .str route)] ∈ allNavItems) :
    ∃ base ∈ allNavItems,
      (navItem id label2 icon route b).get "id" = base.get "id" ∧
      (navItem id label2 icon route b).get "icon" = base.get "icon" ∧
      (navItem id label2 icon route b).get "route" = base.get "route" ∧
      ∀ k, k ∉ ["label", "is_active"] → (navItem id label2 icon route b).get k = base.get k := by
  refine ⟨_, hb, rfl, rfl, rfl, ?_⟩
  intro k hk
  simp only [List.mem_cons, List.mem_singleton, List.not_mem_nil, or_false, not_or] at hk
  have e1 : ¬ "label" = k := fun e => hk.1 e.symm
  have e2 : ¬ "is_active" = k := fun e => hk.2 e.symm
  simp [navItem, Value.get, mapGet, e1, e2]

/-- Claim C26. For every screen and mode each `bottom_nav` item agrees with one of the five
entries of `allNavItems` in id, icon and route, and in every key other than label and is_active;
no entry appears twice. -/
theorem bottom_nav_frame (screen mode : String) :
    ∃ items, bottomNav screen mode = some items ∧
      (∀ it ∈ items, ∃ base ∈ allNavItems,
        it.get "id" = base.get "id" ∧ it.get "icon" = base.get "icon" ∧
        it.get "route" = base.get "route" ∧
        ∀ k, k ∉ ["label", "is_active"] → it.get k = base.get k) ∧
      (items.map (fun it => it.getStr "id")).Nodup ∧
      (items.map (fun it => it.getStr "route")).Nodup := by
  refine ⟨_, bottomNav_eq screen mode, ?_, ?_, ?_⟩
  · intro it hit
    unfold markedItems at hit
    split_ifs at hit <;>
      simp only [List.mem_cons, List.mem_singleton, List.not_mem_nil, or_false] at hit
    · rcases hit with h | h <;> subst h
      · exact navItem_frame _ "Home" _ _ _ _ (by simp [allNavItems])
      · exact navItem_frame _ "Profile" _ _ _ _ (by simp [allNavItems])
    · rcases hit with h | h <;> subst h
      · exact navItem_frame _ "Home" _ _ _ _ (by simp [allNavItems])
      · exact navItem_frame _ "Cart" _ _ _ _ (by simp [allNavItems])
    · rcases hit with h | h | h <;> subst h
      · exact navItem_frame _ "Home" _ _ _ _ (by simp [allNavItems])
      · exact navItem_frame _ "Favorites" _ _ _ _ (by simp [allNavItems])
      · exact navItem_frame _ "Profile" _ _ _ _ (by simp [allNavItems])
    · rcases hit with h | h | h | h <;> subst h
      · exact navItem_frame _ "Home" _ _ _ _ (by simp [allNavItems])
      · exact navItem_frame _ "Search" _ _ _ _ (by simp [allNavItems])
      · exact navItem_frame _ "Favorites" _ _ _ _ (by simp [allNavItems])
      · exact navItem_frame _ "Profile" _ _ _ _ (by simp [allNavItems])
    · rcases hit with h | h | h | h <;> subst h
      · exact navItem_frame _ "Home" _ _ _ _ (by simp [allNavItems])
      · exact navItem_frame _ "Search" _ _ _ _ (by simp [allNavItems])
      · exact navItem_frame _ "Cart" _ _ _ _ (by simp [allNavItems])
      · exact navItem_frame _ "Profile" _ _ _ _ (by simp [allNavItems])
  · unfold markedItems
    split_ifs <;> simp [navItem, Value.getStr, Value.get, mapGet, Value.asString]
  · unfold markedItems
    split_ifs <;> simp [navItem, Value.getStr, Value.get, mapGet, Value.asString]

/-- Claim C28, the code at the failing input: in mode night the bottom_nav is home, search,
favorites, profile, the search item is relabelled "Explore", and the profile item keeps the
label "Profile", not "You". -/
theorem night_profile_label :
    ∃ items home search favorites profile,
      bottomNav "/" "night" = some items ∧ items = [home, search, favorites, profile] ∧
      profile.getStr "id" = some "nav-profile" ∧ profile.getStr "label" = some "Profile" ∧
      profile.getStr "label" ≠ some "You" ∧ search.getStr "label" = some "Explore" := by
  rw [bottomNav_eq]
  exact ⟨_, _, _, _, _, rfl, rfl, rfl, rfl, by decide, rfl⟩

/-- Claim C29. For every hour below 0 or from 24 on no case guard of `getCurrentMode` holds and
the resolver returns "day". -/
theorem getCurrentMode_out_of_range (h : Int) (hr : h < 0 ∨ 24 ≤ h) :
    (modeCases.filter (fun c => c.1 h)).length = 0 ∧
    modeCases.find? (fun c => c.1 h) = none ∧
    getCurrentMode h = "day" := by
  have hf : modeCases.filter (fun c => c.1 h) = [] := by
    rw [List.filter_eq_nil_iff]
    intro c hc
    simp only [modeCases, List.mem_cons, List.mem_singleton, List.not_mem_nil, or_false] at hc
    rcases hc with e | e | e | e | e | e | e <;> subst e <;> simp <;> omega
  have hn : modeCases.find? (fun c => c.1 h) = none := by
    rw [List.find?_eq_none]
    intro c hc
    have := List.filter_eq_nil_iff.mp hf c hc
    exact this
  refine ⟨by rw [hf]; rfl, hn, ?_⟩
  simp [getCurrentMode, hn]

/-- Claim C29 at the hours 24 and -1. -/
theorem getCurrentMode_out_of_range_witness :
    getCurrentMode 24 = "day" ∧ getCurrentMode (-1) = "day" :=
  ⟨(getCurrentMode_out_of_range 24 (Or.inr (by decide))).2.2,
   (getCurrentMode_out_of_range (-1) (Or.inl (by decide))).2.2⟩

/-- Depth of the component tree of the late_night home composition. -/
theorem getLateNightModeConfig_depth (clk : Clock) :
    ∃ d comps, getLateNightModeConfig clk = some d ∧ d.get "components" = some (.arr comps) ∧
      forestDepth comps ≤ 2 := by
  rw [getLateNightModeConfig, getNavigationConfig_eq]
  exact ⟨_, _, rfl, rfl, Nat.le_of_ble_eq_true rfl⟩

/-- Depth of the component tree of the morning home composition. -/
theorem getMorningModeConfig_depth (clk : Clock) :
    ∃ d comps, getMorningModeConfig clk = some d ∧ d.get "components" = some (.arr comps) ∧
      forestDepth comps ≤ 2 := by
  rw [getMorningModeConfig, getNavigationConfig_eq]
  exact ⟨_, _, rfl, rfl, Nat.le_of_ble_eq_true rfl⟩

/-- Depth of the component tree of the flash_sale home composition. -/
theorem getFlashSaleConfig_depth (clk : Clock) :
    ∃ d comps, getFlashSaleConfig clk = some d ∧ d.get "components" = some (.arr comps) ∧
      forestDepth comps ≤ 2 := by
  rw [getFlashSaleConfig, getNavigationConfig_eq]
  exact ⟨_, _, rfl, rfl, Nat.le_of_ble_eq_true rfl⟩

/-- Depth of the component tree of the afternoon home composition. -/
theorem getAfternoonModeConfig_depth (clk : Clock) :
    ∃ d comps, getAfternoonModeConfig clk = some d ∧ d.get "components" = some (.arr comps) ∧
      forestDepth comps ≤ 2 := by
  rw [getAfternoonModeConfig, getNavigationConfig_eq]
  exact ⟨_, _, rfl, rfl, Nat.le_of_ble_eq_true rfl⟩

/-- Depth of the component tree of the evening home composition. -/
theorem getEveningConfig_depth (clk : Clock) :
    ∃ d comps, getEveningConfig clk = some d ∧ d.get "components" = some (.arr comps) ∧
      forestDepth comps ≤ 2 := by
  rw [getEveningConfig, getNavigationConfig_eq]
  exact ⟨_, _, rfl, rfl, Nat.le_of_ble_eq_true rfl⟩

/-- Depth of the component tree of the night home composition. -/
theorem getNightModeConfig_depth (clk : Clock) :
    ∃ d comps, getNightModeConfig clk = some d ∧ d.get "components" = some (.arr comps) ∧
      forestDepth comps ≤ 2 := by
  rw [getNightModeConfig, getNavigationConfig_eq]
  exact ⟨_, _, rfl, rfl, Nat.le_of_ble_eq_true rfl⟩

/-- Depth of the component tree of the day home composition. -/
theorem getDayModeConfig_depth (clk : Clock) :
    ∃ d comps, getDayModeConfig clk = some d ∧ d.get "components" = some (.arr comps) ∧
      forestDepth comps ≤ 2 := by
  rw [getDayModeConfig, getNavigationConfig_eq]
  exact ⟨_, _, rfl, rfl, Nat.le_of_ble_eq_true rfl⟩

/-- Depth of the component tree of the product screen. -/
theorem getProductScreenConfig_depth (clk : Clock) (mode productID : String) :
    ∃ d comps, getProductScreenConfig clk mode productID = some d ∧ d.get "components" = some (.arr comps) ∧
      forestDepth comps ≤ 2 := by
  rw [getProductScreenConfig, getNavigationConfig_eq]
  exact ⟨_, _, rfl, rfl, Nat.le_of_ble_eq_true rfl⟩

/-- Depth of the component tree of the cart screen. -/
theorem getCartScreenConfig_depth (clk : Clock) (mode : String) :
    ∃ d comps, getCartScreenConfig clk mode = some d ∧ d.get "components" = some (.arr comps) ∧
      forestDepth comps ≤ 2 := by
  rw [getCartScreenConfig, getNavigationConfig_eq]
  exact ⟨_, _, rfl, rfl, Nat.le_of_ble_eq_true rfl⟩

/-- Depth of the component tree of the profile screen. -/
theorem getProfileScreenConfig_depth (clk : Clock) (mode : String) :
    ∃ d comps, getProfileScreenConfig clk mode = some d ∧ d.get "components" = some (.arr comps) ∧
      forestDepth comps ≤ 2 := by
  rw [getProfileScreenConfig, getNavigationConfig_eq]
  exact ⟨_, _, rfl, rfl, Nat.le_of_ble_eq_true rfl⟩

/-- Depth of the component tree of the search screen. -/
theorem getSearchScreenConfig_depth (clk : Clock) (mode : String) :
    ∃ d comps, getSearchScreenConfig clk mode = some d ∧ d.get "components" = some (.arr comps) ∧
      forestDepth comps ≤ 2 := by
  rw [getSearchScreenConfig, getNavigationConfig_eq]
  exact ⟨_, _, rfl, rfl, Nat.le_of_ble_eq_true rfl⟩

/-- Depth of the component tree of the favorites screen. -/
theorem getFavoritesScreenConfig_depth (clk : Clock) (mode : String) :
    ∃ d comps, getFavoritesScreenConfig clk mode = some d ∧ d.get "components" = some (.arr comps) ∧
      forestDepth comps ≤ 2 := by
  rw [getFavoritesScreenConfig, getNavigationConfig_eq]
  exact ⟨_, _, rfl, rfl, Nat.le_of_ble_eq_true rfl⟩

/-- Claim C27. For every screen, mode and product id the component tree of the composed
descriptor has depth at most 3, a top-level component counting as depth 1. -/
theorem component_tree_depth (clk : Clock) (screen mode userId productID : String) :
    ∃ d comps, dispatchScreen clk screen mode userId productID = some d ∧
      d.get "components" = some (.arr comps) ∧ forestDepth comps ≤ 3 := by
  have up : ∀ {x : Option Value},
      (∃ d comps, x = some d ∧ d.get "components" = some (.arr comps) ∧ forestDepth comps ≤ 2) →
      ∃ d comps, x = some d ∧ d.get "components" = some (.arr comps) ∧ forestDepth comps ≤ 3 := by
    rintro x ⟨d, comps, h1, h2, h3⟩
    exact ⟨d, comps, h1, h2, Nat.le_succ_of_le h3⟩
  have home : ∃ d comps, getHomeScreenConfig clk mode userId = some d ∧
      d.get "components" = some (.arr comps) ∧ forestDepth comps ≤ 3 := by
    unfold getHomeScreenConfig
    split_ifs
    · exact up (getLateNightModeConfig_depth clk)
    · exact up (getMorningModeConfig_depth clk)
    · exact up (getFlashSaleConfig_depth clk)
    · exact up (getAfternoonModeConfig_depth clk)
    · exact up (getEveningConfig_depth clk)
    · exact up (getNightModeConfig_depth clk)
    · exact up (getDayModeConfig_depth clk)
  unfold dispatchScreen
  split_ifs
  · exact home
  · exact up (getProductScreenConfig_depth clk mode productID)
  · exact up (getCartScreenConfig_depth clk mode)
  · exact up (getProfileScreenConfig_depth clk mode)
  · exact up (getSearchScreenConfig_depth clk mode)
  · exact up (getFavoritesScreenConfig_depth clk mode)
  · exact home

/-- The home composition carries the metadata of the mode it is asked for, when the mode is one
of the seven mode names. -/
theorem getHomeScreenConfig_metadata (clk : Clock) (mode userId : String)
    (h : mode ∈ modeNames) :
    (getHomeScreenConfig clk mode userId).bind (fun d => d.get "metadata") =
      some (getMetadata clk mode) := by
  simp only [modeNames, List.mem_cons, List.mem_singleton, List.not_mem_nil, or_false] at h
  rcases h with h | h | h | h | h | h | h <;> subst h
  · obtain ⟨t, c, e, -, -⟩ := getLateNightModeConfig_shape clk
    rw [show getHomeScreenConfig clk "late_night" userId = getLateNightModeConfig clk from rfl, e]
    exact (descriptor_get _ _ _ _ _ _).2.2.2.2.2.1
  · obtain ⟨t, c, e, -, -⟩ := getMorningModeConfig_shape clk
    rw [show getHomeScreenConfig clk "morning" userId = getMorningModeConfig clk from rfl, e]
    exact (descriptor_get _ _ _ _ _ _).2.2.2.2.2.1
  · obtain ⟨t, c, e, -, -⟩ := getDayModeConfig_shape clk
    rw [show getHomeScreenConfig clk "day" userId = getDayModeConfig clk from rfl, e]
    exact (descriptor_get _ _ _ _ _ _).2.2.2.2.2.1
  · obtain ⟨t, c, e, -, -⟩ := getFlashSaleConfig_shape clk
    rw [show getHomeScreenConfig clk "flash_sale" userId = getFlashSaleConfig clk from rfl, e]
    exact (descriptor_get _ _ _ _ _ _).2.2.2.2.2.1
  · obtain ⟨t, c, e, -, -⟩ := getAfternoonModeConfig_shape clk
    rw [show getHomeScreenConfig clk "afternoon" userId = getAfternoonModeConfig clk from rfl, e]
    exact (descriptor_get _ _ _ _ _ _).2.2.2.2.2.1
  · obtain ⟨t, c, e, -, -⟩ := getEveningConfig_shape clk
    rw [show getHomeScreenConfig clk "evening" userId = getEveningConfig clk from rfl, e]
    exact (descriptor_get _ _ _ _ _ _).2.2.2.2.2.1
  · obtain ⟨t, c, e, -, -⟩ := getNightModeConfig_shape clk
    rw [show getHomeScreenConfig clk "night" userId = getNightModeConfig clk from rfl, e]
    exact (descriptor_get _ _ _ _ _ _).2.2.2.2.2.1

/-- Claim C30. For each of the seven modes and every screen, `metadata.mode` of the composed
descriptor is the mode it was composed with and `metadata.version` is "2.0.0"; the home routine
of a mode passes that mode to `getNavigationConfig` and to `getMetadata`. -/
theorem metadata_mode (clk : Clock) (screen mode userId productID : String)
    (h : mode ∈ modeNames) :
    (∃ d md, dispatchScreen clk screen mode userId productID = some d ∧
      d.get "metadata" = some md ∧ md.getStr "mode" = some mode ∧
      md.getStr "version" = some "2.0.0") ∧
    (getHomeScreenConfig clk mode userId).bind (fun d => d.get "navigation") =
      getNavigationConfig "/" mode ∧
    (getHomeScreenConfig clk mode userId).bind (fun d => d.get "metadata") =
      some (getMetadata clk mode) := by
  refine ⟨?_, getHomeScreenConfig_navigation clk mode userId,
    getHomeScreenConfig_metadata clk mode userId h⟩
  have fin : ∀ {x : Option Value}, x.bind (fun d => d.get "metadata") = some (getMetadata clk mode) →
      ∃ d md, x = some d ∧ d.get "metadata" = some md ∧ md.getStr "mode" = some mode ∧
        md.getStr "version" = some "2.0.0" := by
    intro x hx
    cases x with
    | none => simp at hx
    | some d =>
      refine ⟨d, _, rfl, hx, ?_, ?_⟩ <;>
        simp [getMetadata, Value.getStr, Value.get, mapGet, Value.asString]
  have sec : ∀ (sid lt : String) (t : Value) (c : List Value) (n : Value),
      (some (descriptor sid lt t c n (getMetadata clk mode))).bind (fun d => d.get "metadata") =
        some (getMetadata clk mode) := fun sid lt t c n =>
    (descriptor_get sid lt t c n _).2.2.2.2.2.1
  have home := fin (getHomeScreenConfig_metadata clk mode userId h)
  unfold dispatchScreen
  split_ifs
  · exact home
  · obtain ⟨c, e, -, -⟩ := getProductScreenConfig_shape clk productID
    exact fin (by rw [e mode]; exact sec _ _ _ _ _)
  · obtain ⟨c, e, -, -⟩ := getCartScreenConfig_shape clk
    exact fin (by rw [e mode]; exact sec _ _ _ _ _)
  · obtain ⟨c, e, -, -⟩ := getProfileScreenConfig_shape clk
    exact fin (by rw [e mode]; exact sec _ _ _ _ _)
  · obtain ⟨c, e, -, -⟩ := getSearchScreenConfig_shape clk
    exact fin (by rw [e mode]; exact sec _ _ _ _ _)
  · obtain ⟨c, e, -, -⟩ := getFavoritesScreenConfig_shape clk
    exact fin (by rw [e mode]; exact sec _ _ _ _ _)
  · exact home

/-- Claim C30 at the cart screen in mode evening. -/
theorem metadata_mode_witness :
    ∃ d md, dispatchScreen ⟨18, "2026-01-05T18:00:00Z", "6:00 PM"⟩ "/cart" "evening" "" "" =
        some d ∧
      d.get "metadata" = some md ∧ md.getStr "mode" = some "evening" ∧
      md.getStr "version" = some "2.0.0" :=
  (metadata_mode ⟨18, "2026-01-05T18:00:00Z", "6:00 PM"⟩ "/cart" "evening" "" "" (by decide)).1

/-! ## Order of the navigation items -/

/-- Id of a marked entry. -/
theorem navItem_id (id label icon route : String) (b : Bool) :
    (navItem id label icon route b).getStr "id" = some id := by
  simp [navItem, Value.getStr, Value.get, mapGet, Value.asString]

/-- Claim C31. For every screen and every mode string the `bottom_nav` is not empty, its items
follow the canonical order home, search, cart, favorites, profile as a subsequence of it, by id
and by route, and its first item is the home item, route "/". -/
theorem bottom_nav_canonical_order (screen mode : String) :
    ∃ items, bottomNav screen mode = some items ∧ items ≠ [] ∧
      List.Sublist (items.map (fun it => it.getStr "id"))
        (allNavItems.map (fun it => it.getStr "id")) ∧
      List.Sublist (items.map (fun it => it.getStr "route"))
        [some "/", some "/search", some "/cart", some "/favorites", some "/profile"] ∧
      (items.head?.bind (fun it => it.getStr "id") = some "nav-home" ∧
        items.head?.bind (fun it => it.getStr "route") = some "/") := by
  refine ⟨_, bottomNav_eq screen mode, ?_, ?_, ?_, ?_⟩
  · unfold markedItems
    split_ifs <;> exact List.cons_ne_nil _ _
  · have e : allNavItems.map (fun it => it.getStr "id") =
        [some "nav-home", some "nav-search", some "nav-cart", some "nav-favorites",
          some "nav-profile"] := rfl
    rw [e]
    unfold markedItems
    split_ifs <;>
      simp only [List.map_cons, List.map_nil, navItem_id] <;> decide
  · unfold markedItems
    split_ifs <;>
      simp only [List.map_cons, List.map_nil, navItem_route] <;> decide
  · unfold markedItems
    split_ifs <;> exact ⟨rfl, rfl⟩

end Sdui
